import Mathlib

/-!
# Verification of the stdnet Session/Transaction core (`stdnet/odm/session.py`)

A shallow embedding of the unit-of-work machinery of `stdnet/odm/session.py`:
`SessionModel` (and its `SessionStructure` variant), `Session`, `Transaction`
and `Manager`.  Python's mutable objects are modelled with an explicit store
mapping object identities (`Nat`) to instance records, the three
insertion-ordered buckets `_new` / `_modified` / `_deleted` become ordered
association lists, and Python exceptions become `Except` values.  A raised
exception in Python leaves all mutations performed up to the raise in place,
so every stateful operation returns its (possibly partial) final state next
to the `Except` outcome.
-/

namespace Stdnet

/-- Instance identity key (`InstanceState.iid`) inside a `SessionModel`:
the primary-key value for persistent objects, a stable locally-unique token
(derived from the Python object identity) for unsaved objects. -/
inductive Iid where
  | pk (v : Nat)
  | loc (oid : Nat)
deriving DecidableEq, Repr

/-- The `action` hint of an instance state (`None` or `'update'`). -/
inductive Act where
  | noact
  | update
deriving DecidableEq, Repr

/-- A model instance together with its cached `InstanceState`.
`meta` is the identity of `instance._meta`; `pkattr` is the primary-key
attribute read by `instance.pkvalue()`; `dbpk` is `instance._dbdata[pkname]`;
`iid`, `persistent`, `deleted`, `action`, `score` mirror the state attributes;
`session` is the `instance.session` back reference (a session id). -/
structure ModelInstance where
  meta : Nat
  pkattr : Option Nat
  dbpk : Option Nat
  iid : Iid
  persistent : Bool
  deleted : Bool
  action : Act
  score : Option Int
  session : Option Nat
deriving DecidableEq, Repr

/-- The heap of Python instance objects, keyed by object identity. -/
def Store := Nat → ModelInstance

/-- Mutate the instance object `oid` in the heap. -/
def Store.set (st : Store) (oid : Nat) (d : ModelInstance) : Store :=
  fun o => if o = oid then d else st o

theorem Store.set_self (st : Store) (oid : Nat) (d : ModelInstance) :
    Store.set st oid d oid = d := by
  simp [Store.set]

theorem Store.set_other (st : Store) (oid o : Nat) (d : ModelInstance) (h : o ≠ oid) :
    Store.set st oid d o = st o := by
  simp [Store.set, h]

theorem Store.set_set (st : Store) (oid : Nat) (d d' : ModelInstance) :
    Store.set (Store.set st oid d) oid d' = Store.set st oid d' := by
  funext o
  by_cases h : o = oid <;> simp [Store.set, h]

/-! ## Ordered dictionaries

`OrderedDict` is modelled by an association list: `d[k] = v` replaces the
first binding of `k` in place (keeping its position) or appends a fresh
binding at the end; `d.pop(k)` removes the binding; lookups return the first
binding. -/

/-- `d.get(k)` / `k in d` for an ordered dictionary. -/
def odGet {K A : Type} [DecidableEq K] : List (K × A) → K → Option A
  | [], _ => none
  | (a, v) :: rest, k => if k = a then some v else odGet rest k

/-- `d[k] = v` for an ordered dictionary. -/
def odSet {K A : Type} [DecidableEq K] : List (K × A) → K → A → List (K × A)
  | [], k, v => [(k, v)]
  | (a, w) :: rest, k, v => if k = a then (a, v) :: rest else (a, w) :: odSet rest k v

/-- `d.pop(k)` for an ordered dictionary (the remaining list). -/
def odRemove {K A : Type} [DecidableEq K] : List (K × A) → K → List (K × A)
  | [], _ => []
  | (a, v) :: rest, k => if k = a then odRemove rest k else (a, v) :: odRemove rest k

theorem odGet_remove {K A : Type} [DecidableEq K] (l : List (K × A)) (k k' : K) :
    odGet (odRemove l k) k' = if k' = k then none else odGet l k' := by
  induction l with
  | nil => simp [odRemove, odGet]
  | cons p rest ih =>
    obtain ⟨a, b⟩ := p
    by_cases h1 : k = a
    · subst h1
      simp only [odRemove, if_pos rfl, if_true]
      rw [ih]
      by_cases h2 : k' = k
      · simp [h2]
      · simp [odGet, h2]
    · simp only [odRemove, if_neg h1, odGet]
      by_cases h2 : k' = a
      · subst h2
        have hne : ¬ k' = k := fun h => h1 h.symm
        simp [hne]
      · simp only [if_neg h2]
        exact ih

theorem odGet_set {K A : Type} [DecidableEq K] (l : List (K × A)) (k k' : K) (v : A) :
    odGet (odSet l k v) k' = if k' = k then some v else odGet l k' := by
  induction l with
  | nil =>
    by_cases h : k' = k <;> simp [odSet, odGet, h]
  | cons p rest ih =>
    obtain ⟨a, b⟩ := p
    by_cases h1 : k = a
    · subst h1
      simp only [odSet, if_pos rfl, odGet]
      by_cases h2 : k' = k <;> simp [h2]
    · simp only [odSet, if_neg h1, odGet]
      by_cases h2 : k' = a
      · subst h2
        have hne : ¬ k' = k := fun h => h1 h.symm
        simp [hne]
      · simp only [if_neg h2]
        exact ih

theorem odGet_none_remove {K A : Type} [DecidableEq K] (l : List (K × A)) (k : K)
    (h : odGet l k = none) : odRemove l k = l := by
  induction l with
  | nil => simp [odRemove]
  | cons p rest ih =>
    obtain ⟨a, b⟩ := p
    simp only [odGet] at h
    by_cases h1 : k = a
    · simp [h1] at h
    · simp only [odRemove, if_neg h1]
      simp only [if_neg h1] at h
      rw [ih h]

/-! ## Exceptions -/

/-- Python exceptions raised by the session core.  `valueError` covers the
two `ValueError` raises of `SessionModel` (`'State is deleted. Cannot add.'`
and the duplicated-iid `'Critical error: ... is duplicated'` that the spec
calls `DuplicateIdentity`); `attributeError` covers attribute access on an
object lacking the attribute (including attribute assignment on `None`). -/
inductive Err where
  | valueError (msg : String)
  | invalidTransaction (msg : String)
  | attributeError (msg : String)
  | commitException (msg : String) (failures : Nat)
deriving DecidableEq, Repr

/-- Message of `ValueError('State is deleted. Cannot add.')`. -/
def deletedMsg : String := "State is deleted. Cannot add."

/-- Message of `ValueError('Critical error: %s is duplicated' % iid)`
(the iid itself is kept opaque).  The spec names this error `DuplicateIdentity`. -/
def duplicatedMsg : String := "Critical error: iid is duplicated"

/-- `instance.session = None` when `instance` is `None` (in `expunge`). -/
def noneSessionMsg : String := "NoneType object has no attribute session"

/-- `self.meta` in `SessionModel.post_commit`: `SessionModel` defines `_meta`
but no `meta` attribute, so formatting the error message raises. -/
def noMetaMsg : String := "SessionModel object has no attribute meta"

/-- `InvalidTransaction` message of `SessionModel.post_commit` for a backend
id that is not in the session. -/
def notInSessionMsg : String := "session received an id which is not in the session"

/-- `InvalidTransaction('"%s" not session mapper')` from `Session.manager`. -/
def notMapperMsg : String := "not session mapper"

/-! ## Queries and backend payloads -/

/-- Query-shaped values held in `_delete_query` / `_queries` and produced by
`get_delete_query`: a user query (opaque), the synthesized
`self.query().filter(id=deleted)` over the deleted instances of an `object`
model, a deleted `structure` instance contributed directly, and
`q.union(*rest)`. -/
inductive DelQ where
  | userQuery (q : Nat)
  | filterIds (oids : List Nat)
  | inst (oid : Nat)
  | union (q : DelQ) (qs : List DelQ)

/-- The `session_data(meta, dirty, deletes, queries)` payload handed to a
backend (empty `deletes` tuple modelled as `none`). -/
structure SessionData where
  meta : Nat
  dirty : List Nat
  deletes : Option DelQ
  queries : List DelQ

/-- A non-error `instance_session_result` reported by the backend. -/
structure IResult where
  iid : Iid
  id : Nat
  persistent : Bool
  deleted : Bool
  score : Option Int

/-- One element of the result list consumed by `SessionModel.post_commit`:
either an `Exception` instance or an instance result. -/
inductive RItem where
  | err (msg : String)
  | res (r : IResult)

/-! ## SessionModel -/

/-- The per-model unit-of-work container.  `meta`, `be` (write backend),
`rbe` (read backend) and `isStructure` come from the owning `Manager`
(`isStructure` is true exactly when `model._model_type == 'structure'`, in
which case the container is the `SessionStructure` subclass).  `bNew`,
`bModified`, `bDeleted` are the `_new` / `_modified` / `_deleted` ordered
dictionaries mapping iid to the instance (by object identity); `delete_query`
and `queries` are `_delete_query` and `_queries`. -/
structure SessionModel where
  meta : Nat
  be : Nat
  rbe : Nat
  isStructure : Bool
  bNew : List (Iid × Nat)
  bModified : List (Iid × Nat)
  bDeleted : List (Iid × Nat)
  delete_query : List DelQ
  queries : List DelQ

/-- A `SessionModel` together with the heap of instances it refers to. -/
structure SMState where
  store : Store
  sm : SessionModel

/-- Modelled from the spec: `instance.get_state(iid=..., action=...)` and the
`InstanceState` constructor live in the field system, outside the sources
under verification.  Per spec §3, `persistent` is true iff the backend is
known to hold the row (the stored primary key `_dbdata[pkname]` is present —
`SessionModel.add` pops/sets exactly that entry "to make sure it is add
action"), and `iid` is the primary-key value for persistent objects and a
stable locally-unique token (derived from the object identity) for unsaved
ones; an explicit `iid` argument (Python `iid=value` with non-`None` value)
overrides the computed one. -/
def stateIid (iidArg : Option Iid) (dbpk : Option Nat) (oid : Nat) : Iid :=
  match iidArg, dbpk with
  | some i, _ => i
  | none, some v => Iid.pk v
  | none, none => Iid.loc oid

/-- Modelled from the spec (see `stateIid`): the state produced by
`instance.get_state(iid=..., action=...)`. -/
def mkState (d : ModelInstance) (oid : Nat) (iidArg : Option Iid) (action : Act) :
    ModelInstance :=
  { d with iid := stateIid iidArg d.dbpk oid, persistent := d.dbpk.isSome,
           action := action }

/-- One iteration of the bucket loop of `SessionModel.pop`: pop `iid` from
the bucket, keeping the first popped instance and raising
`ValueError('Critical error: ... is duplicated')` when a later bucket holds a
distinct object under the same iid. -/
def popStep (b : List (Iid × Nat)) (iid : Iid) (acc : Option Nat) :
    List (Iid × Nat) × Except Err (Option Nat) :=
  match odGet b iid with
  | none => (b, .ok acc)
  | some v =>
    let b' := odRemove b iid
    match acc with
    | none => (b', .ok (some v))
    | some w => if v = w then (b', .ok acc) else (b', .error (Err.valueError duplicatedMsg))

/-- Continuation of the bucket loop of `pop` over `_modified` and
`_deleted`, after `_new` has been processed.  On a duplicate-identity error
the buckets popped before the raise stay popped (Python mutations survive
the raise). -/
def popCore2 (n' m d : List (Iid × Nat)) (iid : Iid) (acc1 : Option Nat) :
    List (Iid × Nat) × List (Iid × Nat) × List (Iid × Nat) × Except Err (Option Nat) :=
  match (popStep m iid acc1).2 with
  | .error e => (n', (popStep m iid acc1).1, d, .error e)
  | .ok acc2 =>
    (n', (popStep m iid acc1).1, (popStep d iid acc2).1, (popStep d iid acc2).2)

/-- The bucket loop of `SessionModel.pop` over the three buckets in order. -/
def popCore (n m d : List (Iid × Nat)) (iid : Iid) :
    List (Iid × Nat) × List (Iid × Nat) × List (Iid × Nat) × Except Err (Option Nat) :=
  match (popStep n iid none).2 with
  | .error e => ((popStep n iid none).1, m, d, .error e)
  | .ok acc1 => popCore2 (popStep n iid none).1 m d iid acc1

/-- `SessionModel.pop` given an iid: scan `_new`, `_modified`, `_deleted` in
order, popping the iid from each. -/
def SessionModel.popIid (s : SessionModel) (iid : Iid) :
    SessionModel × Except Err (Option Nat) :=
  match popCore s.bNew s.bModified s.bDeleted iid with
  | (n', m', d', r) => ({ s with bNew := n', bModified := m', bDeleted := d' }, r)

/-- Argument of `pop` / `expunge`: a model instance (by object identity) or
a raw iid. -/
def popTarget (st : Store) : Sum Nat Iid → Iid
  | .inl oid => (st oid).iid
  | .inr iid => iid

/-- `SessionModel.pop(instance)` where `instance` is a model instance or an
id. -/
def SessionModel.popArg (ss : SMState) (arg : Sum Nat Iid) :
    SMState × Except Err (Option Nat) :=
  ({ ss with sm := (ss.sm.popIid (popTarget ss.store arg)).1 },
   (ss.sm.popIid (popTarget ss.store arg)).2)

/-- The re-stated instance computed by `SessionModel.add` after the pop:
rule 4 (not persistent: clear the stored primary key, re-state with
`iid=None`), rule 5 (`persistent=True` argument: store `pkvalue()`, re-state
with `iid=pkvalue`) or rule 6 (re-state preserving the iid, applying
`action='update'` when `force_update`). -/
def restated (inst : ModelInstance) (oid : Nat)
    (persistent : Option Bool) (force_update : Bool) : ModelInstance :=
  if !(persistent.getD inst.persistent) then
    mkState { inst with dbpk := none } oid none Act.noact
  else if persistent = some true then
    mkState { inst with dbpk := inst.pkattr } oid (inst.pkattr.map Iid.pk) Act.noact
  else
    mkState inst oid (some inst.iid) (if force_update then Act.update else Act.noact)

/-- The bucket routing of `SessionModel.add`: into `_modified` when the
re-stated instance is persistent and `modified` is set, nowhere when
persistent but unmodified, into `_new` when not persistent. -/
def addBucket (s1 : SessionModel) (oid : Nat) (inst1 : ModelInstance)
    (modified : Bool) : SessionModel :=
  if inst1.persistent then
    if modified then { s1 with bModified := odSet s1.bModified inst1.iid oid } else s1
  else { s1 with bNew := odSet s1.bNew inst1.iid oid }

/-- The tail of `SessionModel.add` after the pop succeeded: write the
re-stated instance back and file it into the appropriate bucket. -/
def addObjCont (st : Store) (s1 : SessionModel) (oid : Nat) (inst : ModelInstance)
    (modified : Bool) (persistent : Option Bool) (force_update : Bool) :
    SMState × Except Err Nat :=
  ({ store := st.set oid (restated inst oid persistent force_update),
     sm := addBucket s1 oid (restated inst oid persistent force_update) modified },
   .ok oid)

/-- `SessionModel.add` (the plain, non-structure version).  Faithful to the
source: raise if the state is deleted; pop the current iid from all buckets;
re-state according to the effective persistence; file into `_modified` only
when persistent and `modified`, into `_new` when not persistent. -/
def SessionModel.addObj (ss : SMState) (oid : Nat) (modified : Bool)
    (persistent : Option Bool) (force_update : Bool) : SMState × Except Err Nat :=
  if (ss.store oid).deleted then (ss, .error (Err.valueError deletedMsg))
  else
    match (ss.sm.popIid ((ss.store oid).iid)).2 with
    | .error e => ({ ss with sm := (ss.sm.popIid ((ss.store oid).iid)).1 }, .error e)
    | .ok _ =>
      addObjCont ss.store ((ss.sm.popIid ((ss.store oid).iid)).1) oid (ss.store oid)
        modified persistent force_update

/-- `SessionStructure.add`: clear the deleted flag, pop only when
`modified` is false, and always file into `_modified`.  (Clearing the
deleted flag does not change the iid, so `state.iid` is `(ss.store oid).iid`.) -/
def SessionModel.addStruct (ss : SMState) (oid : Nat) (modified : Bool) :
    SMState × Except Err Nat :=
  if modified then
    ({ store := ss.store.set oid { ss.store oid with deleted := false },
       sm := { ss.sm with bModified := odSet ss.sm.bModified ((ss.store oid).iid) oid } },
     .ok oid)
  else
    match (ss.sm.popIid ((ss.store oid).iid)).2 with
    | .error e =>
      ({ store := ss.store.set oid { ss.store oid with deleted := false },
         sm := (ss.sm.popIid ((ss.store oid).iid)).1 }, .error e)
    | .ok _ =>
      ({ store := ss.store.set oid { ss.store oid with deleted := false },
         sm := { (ss.sm.popIid ((ss.store oid).iid)).1 with
                 bModified := odSet ((ss.sm.popIid ((ss.store oid).iid)).1).bModified
                   ((ss.store oid).iid) oid } },
       .ok oid)

/-- Dynamic dispatch of `add`: `SessionStructure.add` when the container is a
structure container (extra keyword arguments are swallowed by `**kwargs`),
`SessionModel.add` otherwise. -/
def SessionModel.add (ss : SMState) (oid : Nat) (modified : Bool)
    (persistent : Option Bool) (force_update : Bool) : SMState × Except Err Nat :=
  if ss.sm.isStructure then SessionModel.addStruct ss oid modified
  else SessionModel.addObj ss oid modified persistent force_update

/-- `SessionModel.delete(instance, session)`: pop the instance; if the popped
(or given) instance is persistent, mark it deleted, file it into `_deleted`
and bind its session; otherwise sever the session link. -/
def SessionModel.delete (ss : SMState) (oid : Nat) (sessionId : Nat) :
    SMState × Except Err (Option Nat) :=
  match (ss.sm.popIid ((ss.store oid).iid)).2 with
  | .error e => ({ ss with sm := (ss.sm.popIid ((ss.store oid).iid)).1 }, .error e)
  | .ok instOpt =>
    let target := instOpt.getD oid
    if (ss.store target).persistent then
      ({ store := ss.store.set target
           { ss.store target with deleted := true, session := some sessionId },
         sm := { (ss.sm.popIid ((ss.store oid).iid)).1 with
                 bDeleted := odSet ((ss.sm.popIid ((ss.store oid).iid)).1).bDeleted
                   ((ss.store target).iid) target } },
       .ok (some target))
    else
      ({ store := ss.store.set target { ss.store target with session := none },
         sm := (ss.sm.popIid ((ss.store oid).iid)).1 },
       .ok (some target))

/-- `SessionModel.expunge(instance)`: `pop` followed by
`instance.session = None`.  When `pop` returns `None` the attribute
assignment dereferences `None` and raises. -/
def SessionModel.expunge (ss : SMState) (arg : Sum Nat Iid) : SMState × Except Err Nat :=
  match (ss.sm.popIid (popTarget ss.store arg)).2 with
  | .error e => ({ ss with sm := (ss.sm.popIid (popTarget ss.store arg)).1 }, .error e)
  | .ok none =>
    ({ ss with sm := (ss.sm.popIid (popTarget ss.store arg)).1 },
     .error (Err.attributeError noneSessionMsg))
  | .ok (some oid) =>
    ({ store := ss.store.set oid { ss.store oid with session := none },
       sm := (ss.sm.popIid (popTarget ss.store arg)).1 }, .ok oid)

/-- `setattr(instance, pkname, id)` inside `post_commit` (the primary-key
coercion `pk_to_python` is modelled as the identity on backend ids). -/
def pkAssigned (ss : SMState) (oid : Nat) (id : Nat) : SMState :=
  { ss with store := ss.store.set oid { ss.store oid with pkattr := some id } }

/-- `instance.get_state().score = result.score` inside `post_commit`. -/
def scoreAssigned (ss : SMState) (oid : Nat) (score : Option Int) : SMState :=
  { ss with store := ss.store.set oid { ss.store oid with score := score } }

/-- The save path of one `post_commit` result: assign the coerced primary
key, re-add via `add(modified=False, persistent=result.persistent)`, set the
score, and report whether the instance ended up persistent (in which case it
is emitted into the saved list). -/
def postCommitSave (ss1 : SMState) (oid : Nat) (r : IResult) :
    SMState × Except Err (Option (Nat × Bool)) :=
  match (SessionModel.add (pkAssigned ss1 oid r.id) oid false (some r.persistent) false).2 with
  | .error e =>
    ((SessionModel.add (pkAssigned ss1 oid r.id) oid false (some r.persistent) false).1,
     .error e)
  | .ok _ =>
    (scoreAssigned
       (SessionModel.add (pkAssigned ss1 oid r.id) oid false (some r.persistent) false).1
       oid r.score,
     .ok (some (oid,
       (((SessionModel.add (pkAssigned ss1 oid r.id) oid false
            (some r.persistent) false).1).store oid).persistent)))

/-- Processing of one non-error result inside `post_commit`: pop by the
reported iid; a deleted result contributes its id (`.ok none`); an unknown
iid on a non-deleted result fails with `InvalidTransaction`; otherwise the
save path runs. -/
def postCommitOne (ss : SMState) (r : IResult) :
    SMState × Except Err (Option (Nat × Bool)) :=
  match (ss.sm.popIid r.iid).2 with
  | .error e => ({ ss with sm := (ss.sm.popIid r.iid).1 }, .error e)
  | .ok instOpt =>
    if r.deleted then ({ ss with sm := (ss.sm.popIid r.iid).1 }, .ok none)
    else
      match instOpt with
      | none =>
        ({ ss with sm := (ss.sm.popIid r.iid).1 },
         .error (Err.invalidTransaction notInSessionMsg))
      | some oid => postCommitSave { ss with sm := (ss.sm.popIid r.iid).1 } oid r

/-- The loop of `SessionModel.post_commit` with its accumulators.  An
`Exception` result crashes on `self.meta` (`SessionModel` has no `meta`
attribute) before anything is appended to the error list. -/
def SessionModel.postCommitRun : SMState → List RItem → List Nat → List Nat → List String →
    SMState × Except Err (List Nat × List Nat × List String)
  | ss, [], ins, del, errs => (ss, .ok (ins.reverse, del.reverse, errs.reverse))
  | ss, RItem.err _ :: _, _, _, _ => (ss, .error (Err.attributeError noMetaMsg))
  | ss, RItem.res r :: rest, ins, del, errs =>
    match (postCommitOne ss r).2 with
    | .error e => ((postCommitOne ss r).1, .error e)
    | .ok none => SessionModel.postCommitRun (postCommitOne ss r).1 rest ins (r.id :: del) errs
    | .ok (some (oid, savedf)) =>
      if savedf then SessionModel.postCommitRun (postCommitOne ss r).1 rest (oid :: ins) del errs
      else SessionModel.postCommitRun (postCommitOne ss r).1 rest ins del errs

/-- `SessionModel.post_commit(results)`. -/
def SessionModel.post_commit (ss : SMState) (results : List RItem) :
    SMState × Except Err (List Nat × List Nat × List String) :=
  SessionModel.postCommitRun ss results [] [] []

/-- The container after `get_delete_query` has consumed `_deleted`. -/
def gdqState (s : SessionModel) : SessionModel :=
  if (s.bDeleted.map (fun p => p.2)).isEmpty then s else { s with bDeleted := [] }

/-- The query list accumulated by `get_delete_query`: `_delete_query`,
extended for a non-empty `_deleted` either by the deleted instances
themselves (`structure` models) or by the synthesized
`self.query().filter(id=deleted)` (`object` models). -/
def gdqQueries (s : SessionModel) : List DelQ :=
  if (s.bDeleted.map (fun p => p.2)).isEmpty then s.delete_query
  else if s.isStructure then
    s.delete_query ++ (s.bDeleted.map (fun p => p.2)).map DelQ.inst
  else s.delete_query ++ [DelQ.filterIds (s.bDeleted.map (fun p => p.2))]

/-- `SessionModel.get_delete_query`: consume `_deleted` (synthesizing an
id-filter query for `object` models, contributing the instances directly for
`structure` models) and `_delete_query`, returning the union of the
accumulated queries. -/
def SessionModel.get_delete_query (s : SessionModel) : SessionModel × Option DelQ :=
  match gdqQueries s with
  | [] => (gdqState s, none)
  | q :: rest =>
    ({ gdqState s with delete_query := [] },
     some (if rest.isEmpty then q else DelQ.union q rest))

/-- `self.dirty`: the `_new` then `_modified` instances in insertion
order. -/
def SessionModel.dirtyList (s : SessionModel) : List Nat :=
  s.bNew.map (fun p => p.2) ++ s.bModified.map (fun p => p.2)

/-- The payload list emitted by `backends_data` once the dirty tuple, the
delete query and the (mutated) container are in hand: nothing when all
three buffers are falsy; one combined payload when the write and read
backends are equal; otherwise a write payload (dirty and deletes, no
queries) when dirty or deletes are present, next to a read payload (queries
only) when queries are present. -/
def backendsOut (dirty : List Nat) (deletes : Option DelQ) (s1 : SessionModel) :
    List (Nat × SessionData) :=
  if dirty.isEmpty && deletes.isNone && s1.queries.isEmpty then []
  else if s1.be = s1.rbe then [(s1.be, ⟨s1.meta, dirty, deletes, s1.queries⟩)]
  else
    (if dirty.isEmpty && deletes.isNone then []
     else [(s1.be, ⟨s1.meta, dirty, deletes, []⟩)]) ++
    (if s1.queries.isEmpty then [] else [(s1.rbe, ⟨s1.meta, [], none, s1.queries⟩)])

/-- `SessionModel.backends_data(transaction)` (signal emission is a no-op
for the purposes of this model). -/
def SessionModel.backends_data (s : SessionModel) :
    SessionModel × List (Nat × SessionData) :=
  ((s.get_delete_query).1,
   backendsOut s.dirtyList (s.get_delete_query).2 (s.get_delete_query).1)

/-! ## Manager

`Manager` defines `__hash__` (hash of the model metadata) but no `__eq__`,
so Python equality between managers is default object identity. -/

/-- A `Manager`: `oid` its Python object identity, `meta` the identity of
`model._meta` (hashed by identity), `isStructure` whether
`model._model_type == 'structure'`. -/
structure Manager where
  oid : Nat
  meta : Nat
  isStructure : Bool
  backend : Nat
  read_backend : Option Nat
deriving DecidableEq, Repr

/-- `Manager.__hash__`: `hash(self.model._meta)`. -/
def Manager.hashv (m : Manager) : Nat := m.meta

/-- Python `==` between two managers: `Manager` defines no `__eq__`, so the
default object-identity comparison applies. -/
def Manager.pyEq (m1 m2 : Manager) : Bool := m1.oid == m2.oid

/-- `Manager.read_backend` property: `self._read_backend or self._backend`. -/
def Manager.readBackendEff (m : Manager) : Nat := m.read_backend.getD m.backend

/-- Keys that reach the `Session._models` dictionary: manager objects (on
insertion) and metadata objects (`Session.expunge` looks up
`self._models.get(instance._meta)`). -/
inductive PyKey where
  | manager (m : Manager)
  | metaKey (meta : Nat)
deriving DecidableEq, Repr

/-- Python `hash` of such a key (`Manager.__hash__` delegates to the meta). -/
def PyKey.hashv : PyKey → Nat
  | .manager m => m.meta
  | .metaKey meta => meta

/-- Python `==` of such keys: object identity in both cases (neither
`Manager` nor a metadata object defines `__eq__` against the other). -/
def PyKey.eqv : PyKey → PyKey → Bool
  | .manager m1, .manager m2 => m1.oid == m2.oid
  | .metaKey a, .metaKey b => a == b
  | _, _ => false

/-- `d[k] = v` on a Python dict with `PyKey` keys (a key matches when the
hashes agree and `==` holds; `==` alone decides membership). -/
def pdictSet (d : List (PyKey × Nat)) (k : PyKey) (v : Nat) : List (PyKey × Nat) :=
  if d.any (fun p => PyKey.eqv p.1 k) then
    d.map (fun p => if PyKey.eqv p.1 k then (p.1, v) else p)
  else d ++ [(k, v)]

/-- `d.get(k)` on such a dict. -/
def pdictGet (d : List (PyKey × Nat)) (k : PyKey) : Option Nat :=
  (d.find? (fun p => PyKey.eqv p.1 k)).map (fun p => p.2)

/-! ## Session -/

/-- A `Session`.  `sid` is the Python object identity of the session (the
value stored into `instance.session`); `router` maps a model's metadata to
its registered `Manager` (modelled from the spec: the `Router` class is
outside the sources under verification, spec §3/§4.3: "Resolves the
`Manager` via the `Router`; if unknown, fails with `InvalidTransaction`");
`models` is the `_models` ordered dictionary.  `_models` is keyed by manager
objects and only ever indexed with the very manager object returned by the
router, so the key is modelled by the manager's object identity;
`transaction` records whether `self.transaction` is set. -/
structure Session where
  sid : Nat
  router : List (Nat × Manager)
  models : List (Nat × SessionModel)
  transaction : Bool

/-- A fresh `SessionModel` / `SessionStructure` for a manager
(`Session.model` with `create=True`). -/
def newSessionModel (m : Manager) : SessionModel :=
  { meta := m.meta, be := m.backend, rbe := m.readBackendEff,
    isStructure := m.isStructure, bNew := [], bModified := [], bDeleted := [],
    delete_query := [], queries := [] }

/-- `Session.manager(model)`: `self.router[model]`, turning a `KeyError`
into `InvalidTransaction`. -/
def Session.managerOf (ss : Session) (meta : Nat) : Except Err Manager :=
  match odGet ss.router meta with
  | some m => .ok m
  | none => .error (Err.invalidTransaction notMapperMsg)

/-- `Session.model(model, create=True)`: resolve the manager, then fetch or
create the `SessionModel` bucket (a `SessionStructure` for structure
models).  Returns the session (with the bucket registered), the manager's
object identity (the `_models` key) and the bucket. -/
def Session.smodel (ss : Session) (meta : Nat) :
    Except Err (Session × Nat × SessionModel) :=
  match ss.managerOf meta with
  | .error e => .error e
  | .ok m =>
    match odGet ss.models m.oid with
    | some sm => .ok (ss, m.oid, sm)
    | none =>
      let sm := newSessionModel m
      .ok ({ ss with models := odSet ss.models m.oid sm }, m.oid, sm)

/-- Result of `Session.add`: the instance, or the implicit
`commit()` triggered when the instance is modified and no transaction is
open (the commit pipeline itself is driven by `Transaction`). -/
inductive AddRes where
  | returned (oid : Nat)
  | implicitCommit (oid : Nat)
deriving DecidableEq, Repr

/-- The body of `Session.add` after the bucket was resolved: assign
`instance.session = self` (this mutation survives a subsequent raise),
delegate to `SessionModel.add`, publish the mutated bucket, then either
return the instance or trigger the implicit commit.  On both the error and
the success path the store and the `_models` entry reflect the (possibly
partial) mutations. -/
def sessionAddCont (st : Store) (ss1 : Session) (mkey : Nat) (sm : SessionModel)
    (oid : Nat) (modified : Bool) (persistent : Option Bool) (force_update : Bool)
    (sid : Nat) : Store × Session × Except Err AddRes :=
  ((SessionModel.add { store := st.set oid { st oid with session := some sid }, sm := sm }
      oid modified persistent force_update).1.store,
   { ss1 with
     models := odSet ss1.models mkey
                 (SessionModel.add
                   { store := st.set oid { st oid with session := some sid }, sm := sm }
                   oid modified persistent force_update).1.sm },
   match (SessionModel.add { store := st.set oid { st oid with session := some sid }, sm := sm }
       oid modified persistent force_update).2 with
   | .error e => .error e
   | .ok o =>
     if modified && !ss1.transaction then .ok (AddRes.implicitCommit o)
     else .ok (AddRes.returned o))

/-- `Session.add(instance, modified=..., **params)`. -/
def Session.add (st : Store) (ss : Session) (oid : Nat) (modified : Bool)
    (persistent : Option Bool) (force_update : Bool) :
    Store × Session × Except Err AddRes :=
  match ss.smodel ((st oid).meta) with
  | .error e => (st, ss, .error e)
  | .ok (ss1, mkey, sm) =>
    sessionAddCont st ss1 mkey sm oid modified persistent force_update ss.sid

/-- `Session.expunge()` with no argument: `self._models.clear()` — the
instances themselves are not touched. -/
def Session.expungeAll (ss : Session) : Session := { ss with models := [] }

/-! ## Transaction -/

/-- The world a `Transaction` acts on: the heap, its session, whether
`transaction.session` still points at the session (`executed` is its
negation), the `finished` flag, and the `saved` / `deleted`
`ModelDictionary`s (keyed by metadata, holding saved instances and deleted
ids). -/
structure TxWorld where
  store : Store
  sess : Session
  txSess : Bool
  txFinished : Bool
  txSaved : List (Nat × List Nat)
  txDeleted : List (Nat × List Nat)

/-- `Transaction.rollback`: when the transaction still holds its session,
expunge the session (clearing all `SessionModel`s), detach
`session.transaction` and drop the session reference. -/
def Transaction.rollback (w : TxWorld) : TxWorld :=
  if w.txSess then
    { w with sess := { w.sess with models := [], transaction := false }, txSess := false }
  else w

/-- One element of a backend response processed by
`Transaction._post_commit`: an `Exception`, a `session_result(meta, items)`
tuple, or anything else (skipped). -/
inductive RespItem where
  | exc (msg : String)
  | sessionRes (meta : Nat) (items : List RItem)
  | other

/-- The scanning loop of `Transaction._post_commit`: collect top-level
exceptions, run `SessionModel.post_commit` for each non-empty
`session_result`, accumulate its errors and record the saved / deleted
groups (signal emission is a no-op for the purposes of this model). -/
def Transaction.scan : Store → Session → List RespItem → List String →
    List (Nat × List Nat) → List (Nat × List Nat) →
    Store × Session × Except Err (List String × List (Nat × List Nat) × List (Nat × List Nat))
  | st, ss, [], excs, saved, deleted => (st, ss, .ok (excs, saved, deleted))
  | st, ss, RespItem.exc m :: rest, excs, saved, deleted =>
    Transaction.scan st ss rest (excs ++ [m]) saved deleted
  | st, ss, RespItem.other :: rest, excs, saved, deleted =>
    Transaction.scan st ss rest excs saved deleted
  | st, ss, RespItem.sessionRes meta items :: rest, excs, saved, deleted =>
    if items.isEmpty then Transaction.scan st ss rest excs saved deleted
    else
      match ss.smodel meta with
      | .error e => (st, ss, .error e)
      | .ok (ss1, mkey, sm) =>
        match SessionModel.post_commit { store := st, sm := sm } items with
        | (res, r) =>
          let ss2 := { ss1 with models := odSet ss1.models mkey res.sm }
          match r with
          | .error e => (res.store, ss2, .error e)
          | .ok (saves, dels, errs) =>
            let deleted1 := if dels.isEmpty then deleted else odSet deleted meta dels
            let saved1 := if saves.isEmpty then saved else odSet saved meta saves
            Transaction.scan res.store ss2 rest (excs ++ errs) saved1 deleted1

/-- The error-aggregation tail of `Transaction._post_commit`: no exception
collected means success; one exception keeps its own message; several are
counted and concatenated under the
`'There were N exceptions during commit.'` banner. -/
def aggregateErrors (exceptions : List String) : Option (String × Nat) :=
  match exceptions with
  | [] => none
  | e :: rest =>
    let failures := rest.length + 1
    if failures > 1 then
      some ("There were " ++ toString failures ++ " exceptions during commit.\n\n" ++
              String.intercalate "\n\n" (e :: rest), failures)
    else some (e, failures)

/-- `Transaction._post_commit(session, response)`: scan the response, mark
the transaction finished, then raise `CommitException` when any errors were
collected. -/
def Transaction.txPostCommit (w : TxWorld) (resp : List RespItem) :
    TxWorld × Except Err Unit :=
  match Transaction.scan w.store w.sess resp [] w.txSaved w.txDeleted with
  | (st, ss, .error e) => ({ w with store := st, sess := ss }, .error e)
  | (st, ss, .ok (excs, saved, deleted)) =>
    let w1 := { w with store := st, sess := ss, txSaved := saved, txDeleted := deleted,
                       txFinished := true }
    match aggregateErrors excs with
    | none => (w1, .ok ())
    | some (msg, n) => (w1, .error (Err.commitException msg n))

/-! ## Operation sequences over one SessionModel

The bucket-mutating operations of the `SessionModel` contract, as invoked by
user code and by the commit pipeline.  `runOp` keeps the (possibly partial)
state of an operation that raised, exactly as the Python objects would. -/

inductive SMOp where
  | addOp (oid : Nat) (modified : Bool) (persistent : Option Bool) (force_update : Bool)
  | delOp (oid : Nat) (sessionId : Nat)
  | popOp (arg : Sum Nat Iid)
  | expungeOp (arg : Sum Nat Iid)
  | postCommitOp (results : List RItem)

def runOp (ss : SMState) : SMOp → SMState
  | .addOp oid m p f => (SessionModel.add ss oid m p f).1
  | .delOp oid sid => (SessionModel.delete ss oid sid).1
  | .popOp a => (SessionModel.popArg ss a).1
  | .expungeOp a => (SessionModel.expunge ss a).1
  | .postCommitOp rs => (SessionModel.post_commit ss rs).1

def runOps : SMState → List SMOp → SMState
  | ss, [] => ss
  | ss, op :: rest => runOps (runOp ss op) rest

/-- An `add` with both `persistent=True` and `modified=True` may re-key the
instance onto a primary-key iid held by a different object; every other call
pattern (in particular every internal `add` performed by `post_commit`,
which always passes `modified=False`) is safe. -/
def SMOp.safeB : SMOp → Bool
  | .addOp _ m p _ => !(p == some true && m)
  | _ => true

/-! ## The bucket invariant -/

/-- The invariant of a plain `SessionModel`: the three buckets are pairwise
disjoint on iid; every bucket entry is keyed by the current iid of the
instance it holds; and local iid tokens belong to the object they were
derived from. -/
structure SMInv (ss : SMState) : Prop where
  disjNM : ∀ k, odGet ss.sm.bNew k = none ∨ odGet ss.sm.bModified k = none
  disjND : ∀ k, odGet ss.sm.bNew k = none ∨ odGet ss.sm.bDeleted k = none
  disjMD : ∀ k, odGet ss.sm.bModified k = none ∨ odGet ss.sm.bDeleted k = none
  syncN : ∀ k oid, odGet ss.sm.bNew k = some oid → (ss.store oid).iid = k
  syncM : ∀ k oid, odGet ss.sm.bModified k = some oid → (ss.store oid).iid = k
  syncD : ∀ k oid, odGet ss.sm.bDeleted k = some oid → (ss.store oid).iid = k
  locOwn : ∀ oid o', (ss.store oid).iid = Iid.loc o' → o' = oid

/-- `b'` is `b` with some keys dropped (as far as lookups can tell). -/
def subBucket (b' b : List (Iid × Nat)) : Prop :=
  ∀ k, odGet b' k = odGet b k ∨ odGet b' k = none

theorem subBucket_refl (b : List (Iid × Nat)) : subBucket b b :=
  fun _ => Or.inl rfl

theorem subBucket_remove (b : List (Iid × Nat)) (iid : Iid) :
    subBucket (odRemove b iid) b := by
  intro k
  rw [odGet_remove]
  by_cases h : k = iid <;> simp [h]

theorem popStep_sub (b : List (Iid × Nat)) (iid : Iid) (acc : Option Nat) :
    subBucket (popStep b iid acc).1 b := by
  unfold popStep
  rcases h : odGet b iid with _ | v
  · exact subBucket_refl b
  · rcases acc with _ | w
    · exact subBucket_remove b iid
    · by_cases hv : v = w <;> simp [hv] <;> exact subBucket_remove b iid

theorem popStep_free (b : List (Iid × Nat)) (iid : Iid) (acc : Option Nat) :
    odGet (popStep b iid acc).1 iid = none := by
  unfold popStep
  rcases h : odGet b iid with _ | v
  · exact h
  · rcases acc with _ | w
    · simp [odGet_remove]
    · by_cases hv : v = w <;> simp [hv, odGet_remove]

theorem popStep_other (b : List (Iid × Nat)) (iid : Iid) (acc : Option Nat) (k : Iid)
    (hk : k ≠ iid) : odGet (popStep b iid acc).1 k = odGet b k := by
  unfold popStep
  rcases h : odGet b iid with _ | v
  · rfl
  · rcases acc with _ | w
    · simp [odGet_remove, hk]
    · by_cases hv : v = w <;> simp [hv, odGet_remove, hk]

theorem popStep_ok_prop (b : List (Iid × Nat)) (iid : Iid) (acc acc' : Option Nat)
    (h : (popStep b iid acc).2 = .ok acc') :
    acc' = acc ∨ (acc = none ∧ ∃ v, odGet b iid = some v ∧ acc' = some v) := by
  unfold popStep at h
  rcases h1 : odGet b iid with _ | v <;> rw [h1] at h
  · simp at h
    exact Or.inl h.symm
  · rcases acc with _ | w
    · simp at h
      exact Or.inr ⟨rfl, v, rfl, h.symm⟩
    · by_cases hv : v = w <;> simp [hv] at h
      exact Or.inl h.symm

theorem popStep_ok_none (b : List (Iid × Nat)) (iid : Iid) (acc : Option Nat)
    (h : (popStep b iid acc).2 = .ok none) :
    odGet b iid = none ∧ acc = none ∧ (popStep b iid acc).1 = b := by
  unfold popStep at h ⊢
  rcases h1 : odGet b iid with _ | v
  all_goals rw [h1] at h
  · simp at h
    exact ⟨rfl, h, rfl⟩
  · rcases acc with _ | w
    · simp at h
    · by_cases hv : v = w <;> simp [hv] at h

theorem popStep_ok_some_src (b : List (Iid × Nat)) (iid : Iid) (acc : Option Nat) (t : Nat)
    (h : (popStep b iid acc).2 = .ok (some t)) :
    acc = some t ∨ odGet b iid = some t := by
  unfold popStep at h
  rcases h1 : odGet b iid with _ | v
  all_goals rw [h1] at h
  · simp at h
    exact Or.inl h
  · rcases acc with _ | w
    · simp at h
      subst h
      exact Or.inr rfl
    · by_cases hv : v = w <;> simp [hv] at h
      subst h
      exact Or.inl rfl

theorem popCore_eq_err1 (n m d : List (Iid × Nat)) (iid : Iid) (e : Err)
    (hr1 : (popStep n iid none).2 = .error e) :
    popCore n m d iid = ((popStep n iid none).1, m, d, .error e) := by
  unfold popCore
  rw [hr1]

theorem popCore2_eq_err (n' m d : List (Iid × Nat)) (iid : Iid) (acc1 : Option Nat) (e : Err)
    (hr2 : (popStep m iid acc1).2 = .error e) :
    popCore2 n' m d iid acc1 = (n', (popStep m iid acc1).1, d, .error e) := by
  unfold popCore2
  rw [hr2]

theorem popCore2_eq_ok (n' m d : List (Iid × Nat)) (iid : Iid) (acc1 acc2 : Option Nat)
    (hr2 : (popStep m iid acc1).2 = .ok acc2) :
    popCore2 n' m d iid acc1 =
      (n', (popStep m iid acc1).1, (popStep d iid acc2).1, (popStep d iid acc2).2) := by
  unfold popCore2
  rw [hr2]

theorem popCore_eq_cont (n m d : List (Iid × Nat)) (iid : Iid) (acc1 : Option Nat)
    (hr1 : (popStep n iid none).2 = .ok acc1) :
    popCore n m d iid = popCore2 (popStep n iid none).1 m d iid acc1 := by
  unfold popCore
  rw [hr1]

theorem popCore_eq_err2 (n m d : List (Iid × Nat)) (iid : Iid) (acc1 : Option Nat) (e : Err)
    (hr1 : (popStep n iid none).2 = .ok acc1) (hr2 : (popStep m iid acc1).2 = .error e) :
    popCore n m d iid = ((popStep n iid none).1, (popStep m iid acc1).1, d, .error e) := by
  rw [popCore_eq_cont n m d iid acc1 hr1, popCore2_eq_err _ m d iid acc1 e hr2]

theorem popCore_eq_ok (n m d : List (Iid × Nat)) (iid : Iid) (acc1 acc2 : Option Nat)
    (hr1 : (popStep n iid none).2 = .ok acc1) (hr2 : (popStep m iid acc1).2 = .ok acc2) :
    popCore n m d iid =
      ((popStep n iid none).1, (popStep m iid acc1).1, (popStep d iid acc2).1,
        (popStep d iid acc2).2) := by
  rw [popCore_eq_cont n m d iid acc1 hr1, popCore2_eq_ok _ m d iid acc1 acc2 hr2]

/-- Inversion of a successful `popCore`: each step succeeded in order. -/
theorem popCore_ok_shape (n m d : List (Iid × Nat)) (iid : Iid) (v : Option Nat)
    (h : (popCore n m d iid).2.2.2 = .ok v) :
    (popCore n m d iid).1 = (popStep n iid none).1 ∧ ∃ acc1 acc2,
      (popStep n iid none).2 = .ok acc1 ∧
      (popCore n m d iid).2.1 = (popStep m iid acc1).1 ∧
      (popStep m iid acc1).2 = .ok acc2 ∧
      (popCore n m d iid).2.2.1 = (popStep d iid acc2).1 ∧
      (popStep d iid acc2).2 = .ok v := by
  rcases hr1 : (popStep n iid none).2 with e | acc1
  · rw [popCore_eq_err1 n m d iid e hr1] at h
    simp at h
  · rcases hr2 : (popStep m iid acc1).2 with e | acc2
    · rw [popCore_eq_err2 n m d iid acc1 e hr1 hr2] at h
      simp at h
    · have he := popCore_eq_ok n m d iid acc1 acc2 hr1 hr2
      rw [he] at h
      rw [he]
      exact ⟨rfl, acc1, acc2, rfl, rfl, hr2, rfl, h⟩

/-- Every result bucket of `popCore` is a sub-bucket of its input. -/
theorem popCore_sub (n m d : List (Iid × Nat)) (iid : Iid) :
    subBucket (popCore n m d iid).1 n ∧ subBucket (popCore n m d iid).2.1 m ∧
      subBucket (popCore n m d iid).2.2.1 d := by
  rcases hr1 : (popStep n iid none).2 with e | acc1
  · rw [popCore_eq_err1 n m d iid e hr1]
    exact ⟨popStep_sub n iid none, subBucket_refl m, subBucket_refl d⟩
  · rcases hr2 : (popStep m iid acc1).2 with e | acc2
    · rw [popCore_eq_err2 n m d iid acc1 e hr1 hr2]
      exact ⟨popStep_sub n iid none, popStep_sub m iid acc1, subBucket_refl d⟩
    · rw [popCore_eq_ok n m d iid acc1 acc2 hr1 hr2]
      exact ⟨popStep_sub n iid none, popStep_sub m iid acc1, popStep_sub d iid acc2⟩

/-- After a successful `popCore`, the popped iid is gone from all buckets. -/
theorem popCore_free_ok (n m d : List (Iid × Nat)) (iid : Iid) (v : Option Nat)
    (h : (popCore n m d iid).2.2.2 = .ok v) :
    odGet (popCore n m d iid).1 iid = none ∧ odGet (popCore n m d iid).2.1 iid = none ∧
      odGet (popCore n m d iid).2.2.1 iid = none := by
  obtain ⟨e1, acc1, acc2, _, e2, _, e3, _⟩ := popCore_ok_shape n m d iid v h
  refine ⟨?_, ?_, ?_⟩
  · rw [e1]; exact popStep_free n iid none
  · rw [e2]; exact popStep_free m iid acc1
  · rw [e3]; exact popStep_free d iid acc2

/-- Keys other than the popped one are untouched by a successful `popCore`. -/
theorem popCore_other_ok (n m d : List (Iid × Nat)) (iid : Iid) (v : Option Nat)
    (h : (popCore n m d iid).2.2.2 = .ok v) (k : Iid) (hk : k ≠ iid) :
    odGet (popCore n m d iid).1 k = odGet n k ∧
      odGet (popCore n m d iid).2.1 k = odGet m k ∧
      odGet (popCore n m d iid).2.2.1 k = odGet d k := by
  obtain ⟨e1, acc1, acc2, _, e2, _, e3, _⟩ := popCore_ok_shape n m d iid v h
  refine ⟨?_, ?_, ?_⟩
  · rw [e1]; exact popStep_other n iid none k hk
  · rw [e2]; exact popStep_other m iid acc1 k hk
  · rw [e3]; exact popStep_other d iid acc2 k hk

/-- A found value returned by `popCore` was stored under the popped iid in
one of the input buckets. -/
theorem popCore_val_some (n m d : List (Iid × Nat)) (iid : Iid) (t : Nat)
    (h : (popCore n m d iid).2.2.2 = .ok (some t)) :
    odGet n iid = some t ∨ odGet m iid = some t ∨ odGet d iid = some t := by
  obtain ⟨_, acc1, acc2, o1, _, o2, _, o3⟩ := popCore_ok_shape n m d iid (some t) h
  rcases popStep_ok_some_src d iid acc2 t o3 with h3 | h3
  · subst h3
    rcases popStep_ok_some_src m iid acc1 t o2 with h2 | h2
    · subst h2
      rcases popStep_ok_some_src n iid none t o1 with h1 | h1
      · simp at h1
      · exact Or.inl h1
    · exact Or.inr (Or.inl h2)
  · exact Or.inr (Or.inr h3)

/-- `popCore` returning `none` means the iid was in no bucket, and the
buckets are syntactically untouched. -/
theorem popCore_val_none (n m d : List (Iid × Nat)) (iid : Iid)
    (h : (popCore n m d iid).2.2.2 = .ok none) :
    odGet n iid = none ∧ odGet m iid = none ∧ odGet d iid = none ∧
      (popCore n m d iid).1 = n ∧ (popCore n m d iid).2.1 = m ∧
      (popCore n m d iid).2.2.1 = d := by
  obtain ⟨e1, acc1, acc2, o1, e2, o2, e3, o3⟩ := popCore_ok_shape n m d iid none h
  obtain ⟨hd, hacc2, hd'⟩ := popStep_ok_none d iid acc2 o3
  subst hacc2
  obtain ⟨hm, hacc1, hm'⟩ := popStep_ok_none m iid acc1 o2
  subst hacc1
  obtain ⟨hn, _, hn'⟩ := popStep_ok_none n iid none o1
  exact ⟨hn, hm, hd, e1.trans hn', e2.trans hm', e3.trans hd'⟩

/-- `popIid` in terms of `popCore`. -/
theorem popIid_eq (s : SessionModel) (iid : Iid) :
    s.popIid iid =
      ({ s with bNew := (popCore s.bNew s.bModified s.bDeleted iid).1,
                bModified := (popCore s.bNew s.bModified s.bDeleted iid).2.1,
                bDeleted := (popCore s.bNew s.bModified s.bDeleted iid).2.2.1 },
       (popCore s.bNew s.bModified s.bDeleted iid).2.2.2) := by
  unfold SessionModel.popIid
  rcases h : popCore s.bNew s.bModified s.bDeleted iid with ⟨n', m', d', r⟩
  rfl

/-- Invariants transport along sub-buckets (with an unchanged store). -/
theorem SMInv.mono {st : Store} {s s' : SessionModel} (hinv : SMInv ⟨st, s⟩)
    (hN : subBucket s'.bNew s.bNew) (hM : subBucket s'.bModified s.bModified)
    (hD : subBucket s'.bDeleted s.bDeleted) : SMInv ⟨st, s'⟩ := by
  have disj : ∀ (b1' b1 b2' b2 : List (Iid × Nat)), subBucket b1' b1 → subBucket b2' b2 →
      (∀ k, odGet b1 k = none ∨ odGet b2 k = none) →
      ∀ k, odGet b1' k = none ∨ odGet b2' k = none := by
    intro b1' b1 b2' b2 hs1 hs2 hd k
    rcases hs1 k with h1 | h1
    · rcases hs2 k with h2 | h2
      · rw [h1, h2]
        exact hd k
      · exact Or.inr h2
    · exact Or.inl h1
  have sync : ∀ (b' b : List (Iid × Nat)), subBucket b' b →
      (∀ k oid, odGet b k = some oid → (st oid).iid = k) →
      ∀ k oid, odGet b' k = some oid → (st oid).iid = k := by
    intro b' b hs hsy k oid hk
    rcases hs k with h | h
    · rw [h] at hk
      exact hsy k oid hk
    · rw [h] at hk
      simp at hk
  exact ⟨disj _ _ _ _ hN hM hinv.disjNM, disj _ _ _ _ hN hD hinv.disjND,
         disj _ _ _ _ hM hD hinv.disjMD, sync _ _ hN hinv.syncN, sync _ _ hM hinv.syncM,
         sync _ _ hD hinv.syncD, hinv.locOwn⟩

/-- `pop` preserves the invariant (also on its error path). -/
theorem popIid_inv {st : Store} {s : SessionModel} (iid : Iid) (hinv : SMInv ⟨st, s⟩) :
    SMInv ⟨st, (s.popIid iid).1⟩ := by
  rw [popIid_eq]
  obtain ⟨hN, hM, hD⟩ := popCore_sub s.bNew s.bModified s.bDeleted iid
  exact hinv.mono hN hM hD

/-- After a successful `pop`, the popped iid keys no bucket. -/
theorem popIid_free_ok (s : SessionModel) (iid : Iid) (v : Option Nat)
    (h : (s.popIid iid).2 = .ok v) :
    odGet ((s.popIid iid).1).bNew iid = none ∧
      odGet ((s.popIid iid).1).bModified iid = none ∧
      odGet ((s.popIid iid).1).bDeleted iid = none := by
  rw [popIid_eq] at h ⊢
  exact popCore_free_ok _ _ _ iid v h

/-- A successful `pop` does not touch other keys. -/
theorem popIid_other_ok (s : SessionModel) (iid : Iid) (v : Option Nat)
    (h : (s.popIid iid).2 = .ok v) (k : Iid) (hk : k ≠ iid) :
    odGet ((s.popIid iid).1).bNew k = odGet s.bNew k ∧
      odGet ((s.popIid iid).1).bModified k = odGet s.bModified k ∧
      odGet ((s.popIid iid).1).bDeleted k = odGet s.bDeleted k := by
  rw [popIid_eq] at h ⊢
  exact popCore_other_ok _ _ _ iid v h k hk

/-- The instance returned by `pop` was stored under the popped iid. -/
theorem popIid_val_some (s : SessionModel) (iid : Iid) (t : Nat)
    (h : (s.popIid iid).2 = .ok (some t)) :
    odGet s.bNew iid = some t ∨ odGet s.bModified iid = some t ∨
      odGet s.bDeleted iid = some t := by
  rw [popIid_eq] at h
  exact popCore_val_some _ _ _ iid t h

/-- `pop` returning `None`: the iid was in no bucket and nothing changed. -/
theorem popIid_val_none (s : SessionModel) (iid : Iid)
    (h : (s.popIid iid).2 = .ok none) :
    odGet s.bNew iid = none ∧ odGet s.bModified iid = none ∧
      odGet s.bDeleted iid = none ∧ (s.popIid iid).1 = s := by
  rw [popIid_eq] at h ⊢
  obtain ⟨h1, h2, h3, e1, e2, e3⟩ := popCore_val_none _ _ _ iid h
  refine ⟨h1, h2, h3, ?_⟩
  rw [e1, e2, e3]

/-- Updating an instance without changing its iid preserves the invariant. -/
theorem SMInv.storeUpdSame {st : Store} {s : SessionModel} (hinv : SMInv ⟨st, s⟩)
    (oid : Nat) (d : ModelInstance) (hiid : d.iid = (st oid).iid) :
    SMInv ⟨st.set oid d, s⟩ := by
  have sync : ∀ (b : List (Iid × Nat)),
      (∀ k o, odGet b k = some o → (st o).iid = k) →
      ∀ k o, odGet b k = some o → ((st.set oid d) o).iid = k := by
    intro b hsy k o hk
    by_cases ho : o = oid
    · subst ho
      rw [Store.set_self, hiid]
      exact hsy k o hk
    · rw [Store.set_other st oid o d ho]
      exact hsy k o hk
  refine ⟨hinv.disjNM, hinv.disjND, hinv.disjMD, sync _ hinv.syncN, sync _ hinv.syncM,
          sync _ hinv.syncD, ?_⟩
  intro o o' h
  dsimp only at h
  by_cases ho : o = oid
  · subst ho
    rw [Store.set_self] at h
    exact hinv.locOwn o o' (hiid ▸ h)
  · rw [Store.set_other st oid o d ho] at h
    exact hinv.locOwn o o' h

/-- Updating an instance that no bucket holds preserves the invariant,
provided its new iid is a primary-key iid or its own local token. -/
theorem SMInv.storeUpdNoval {st : Store} {s : SessionModel} (hinv : SMInv ⟨st, s⟩)
    (oid : Nat) (d : ModelInstance)
    (hnN : ∀ k, odGet s.bNew k ≠ some oid)
    (hnM : ∀ k, odGet s.bModified k ≠ some oid)
    (hnD : ∀ k, odGet s.bDeleted k ≠ some oid)
    (hloc : ∀ o', d.iid = Iid.loc o' → o' = oid) :
    SMInv ⟨st.set oid d, s⟩ := by
  have sync : ∀ (b : List (Iid × Nat)), (∀ k, odGet b k ≠ some oid) →
      (∀ k o, odGet b k = some o → (st o).iid = k) →
      ∀ k o, odGet b k = some o → ((st.set oid d) o).iid = k := by
    intro b hn hsy k o hk
    by_cases ho : o = oid
    · subst ho
      exact absurd hk (hn k)
    · rw [Store.set_other st oid o d ho]
      exact hsy k o hk
  refine ⟨hinv.disjNM, hinv.disjND, hinv.disjMD, sync _ hnN hinv.syncN,
          sync _ hnM hinv.syncM, sync _ hnD hinv.syncD, ?_⟩
  intro o o' h
  dsimp only at h
  by_cases ho : o = oid
  · subst ho
    rw [Store.set_self] at h
    exact hloc o' h
  · rw [Store.set_other st oid o d ho] at h
    exact hinv.locOwn o o' h

/-- Inserting `oid` into `_new` under its current iid preserves the
invariant when `_modified` and `_deleted` do not hold that key. -/
theorem SMInv.insertNew {st : Store} {s : SessionModel} (hinv : SMInv ⟨st, s⟩)
    (k : Iid) (oid : Nat) (hfM : odGet s.bModified k = none)
    (hfD : odGet s.bDeleted k = none) (hiid : (st oid).iid = k) :
    SMInv ⟨st, { s with bNew := odSet s.bNew k oid }⟩ := by
  refine ⟨?_, ?_, hinv.disjMD, ?_, hinv.syncM, hinv.syncD, hinv.locOwn⟩
  · intro k'
    rw [odGet_set]
    by_cases hk : k' = k
    · subst hk
      exact Or.inr hfM
    · simp only [if_neg hk]
      exact hinv.disjNM k'
  · intro k'
    rw [odGet_set]
    by_cases hk : k' = k
    · subst hk
      exact Or.inr hfD
    · simp only [if_neg hk]
      exact hinv.disjND k'
  · intro k' o hk
    rw [odGet_set] at hk
    by_cases hkk : k' = k
    · subst hkk
      simp at hk
      subst hk
      exact hiid
    · simp only [if_neg hkk] at hk
      exact hinv.syncN k' o hk

/-- Inserting into `_modified` under the current iid of the instance. -/
theorem SMInv.insertModified {st : Store} {s : SessionModel} (hinv : SMInv ⟨st, s⟩)
    (k : Iid) (oid : Nat) (hfN : odGet s.bNew k = none)
    (hfD : odGet s.bDeleted k = none) (hiid : (st oid).iid = k) :
    SMInv ⟨st, { s with bModified := odSet s.bModified k oid }⟩ := by
  refine ⟨?_, hinv.disjND, ?_, hinv.syncN, ?_, hinv.syncD, hinv.locOwn⟩
  · intro k'
    rw [odGet_set]
    by_cases hk : k' = k
    · subst hk
      exact Or.inl hfN
    · simp only [if_neg hk]
      exact hinv.disjNM k'
  · intro k'
    rw [odGet_set]
    by_cases hk : k' = k
    · subst hk
      exact Or.inr hfD
    · simp only [if_neg hk]
      exact hinv.disjMD k'
  · intro k' o hk
    rw [odGet_set] at hk
    by_cases hkk : k' = k
    · subst hkk
      simp at hk
      subst hk
      exact hiid
    · simp only [if_neg hkk] at hk
      exact hinv.syncM k' o hk

/-- Inserting into `_deleted` under the current iid of the instance. -/
theorem SMInv.insertDeleted {st : Store} {s : SessionModel} (hinv : SMInv ⟨st, s⟩)
    (k : Iid) (oid : Nat) (hfN : odGet s.bNew k = none)
    (hfM : odGet s.bModified k = none) (hiid : (st oid).iid = k) :
    SMInv ⟨st, { s with bDeleted := odSet s.bDeleted k oid }⟩ := by
  refine ⟨hinv.disjNM, ?_, ?_, hinv.syncN, hinv.syncM, ?_, hinv.locOwn⟩
  · intro k'
    rw [odGet_set]
    by_cases hk : k' = k
    · subst hk
      exact Or.inl hfN
    · simp only [if_neg hk]
      exact hinv.disjND k'
  · intro k'
    rw [odGet_set]
    by_cases hk : k' = k
    · subst hk
      exact Or.inl hfM
    · simp only [if_neg hk]
      exact hinv.disjMD k'
  · intro k' o hk
    rw [odGet_set] at hk
    by_cases hkk : k' = k
    · subst hkk
      simp at hk
      subst hk
      exact hiid
    · simp only [if_neg hkk] at hk
      exact hinv.syncD k' o hk

/-! ## Preservation of the bucket invariant by the operations -/

/-- The iid of the re-stated instance: either the fresh local token, the
previous iid, or (only when `persistent=True` was passed) a primary-key
iid with the state persistent. -/
theorem restated_iid_cases (inst : ModelInstance) (oid : Nat) (p : Option Bool) (f : Bool) :
    (restated inst oid p f).iid = Iid.loc oid ∨
      (restated inst oid p f).iid = inst.iid ∨
      (p = some true ∧ (restated inst oid p f).persistent = true ∧
        ∃ w, (restated inst oid p f).iid = Iid.pk w) := by
  unfold restated
  cases hpers : p.getD inst.persistent
  · simp only [Bool.not_false, if_true]
    exact Or.inl rfl
  · simp only [Bool.not_true, if_false]
    by_cases hpt : p = some true
    · rw [if_pos hpt]
      rcases hw : inst.pkattr with _ | w
      · left
        simp [mkState, stateIid, hw]
      · right; right
        refine ⟨hpt, ?_, w, ?_⟩ <;> simp [mkState, stateIid, hw]
    · rw [if_neg hpt]
      right; left
      simp [mkState, stateIid]

/-- Compatibility of the re-stated iid with local-token ownership. -/
theorem restated_loc (inst : ModelInstance) (oid : Nat) (p : Option Bool) (f : Bool)
    (o' : Nat) (h : (restated inst oid p f).iid = Iid.loc o') :
    o' = oid ∨ inst.iid = Iid.loc o' := by
  rcases restated_iid_cases inst oid p f with h1 | h1 | ⟨_, _, w, h1⟩
  · rw [h1] at h
    exact Or.inl (Iid.loc.inj h).symm
  · rw [h1] at h
    exact Or.inr h
  · rw [h1] at h
    cases h

/-- When the re-stated instance is filed into a bucket on a safe call, its
iid is the local token or the previous iid. -/
theorem restated_iid_safe (inst : ModelInstance) (oid : Nat) (p : Option Bool) (f : Bool)
    (h : ¬(p = some true ∧ (restated inst oid p f).persistent = true)) :
    (restated inst oid p f).iid = Iid.loc oid ∨ (restated inst oid p f).iid = inst.iid := by
  rcases restated_iid_cases inst oid p f with h1 | h1 | ⟨hp, hpers, _⟩
  · exact Or.inl h1
  · exact Or.inr h1
  · exact absurd ⟨hp, hpers⟩ h

/-- After a successful pop of the instance's own iid, no bucket entry holds
the instance any more. -/
theorem popIid_noval {st : Store} {s : SessionModel} (oid : Nat) (hinv : SMInv ⟨st, s⟩)
    (v : Option Nat) (hr : (s.popIid ((st oid).iid)).2 = .ok v) :
    (∀ k, odGet ((s.popIid ((st oid).iid)).1).bNew k ≠ some oid) ∧
      (∀ k, odGet ((s.popIid ((st oid).iid)).1).bModified k ≠ some oid) ∧
      (∀ k, odGet ((s.popIid ((st oid).iid)).1).bDeleted k ≠ some oid) := by
  obtain ⟨fN, fM, fD⟩ := popIid_free_ok s _ v hr
  refine ⟨?_, ?_, ?_⟩
  · intro k hk
    by_cases hkk : k = (st oid).iid
    · rw [hkk, fN] at hk
      cases hk
    · obtain ⟨oN, _, _⟩ := popIid_other_ok s _ v hr k hkk
      rw [oN] at hk
      exact hkk (hinv.syncN k oid hk).symm
  · intro k hk
    by_cases hkk : k = (st oid).iid
    · rw [hkk, fM] at hk
      cases hk
    · obtain ⟨_, oM, _⟩ := popIid_other_ok s _ v hr k hkk
      rw [oM] at hk
      exact hkk (hinv.syncM k oid hk).symm
  · intro k hk
    by_cases hkk : k = (st oid).iid
    · rw [hkk, fD] at hk
      cases hk
    · obtain ⟨_, _, oD⟩ := popIid_other_ok s _ v hr k hkk
      rw [oD] at hk
      exact hkk (hinv.syncD k oid hk).symm

/-- After a successful pop of the instance's own iid, the instance's local
token keys no bucket. -/
theorem popIid_free_loc {st : Store} {s : SessionModel} (oid : Nat) (hinv : SMInv ⟨st, s⟩)
    (v : Option Nat) (hr : (s.popIid ((st oid).iid)).2 = .ok v) :
    odGet ((s.popIid ((st oid).iid)).1).bNew (Iid.loc oid) = none ∧
      odGet ((s.popIid ((st oid).iid)).1).bModified (Iid.loc oid) = none ∧
      odGet ((s.popIid ((st oid).iid)).1).bDeleted (Iid.loc oid) = none := by
  obtain ⟨fN, fM, fD⟩ := popIid_free_ok s _ v hr
  by_cases hkk : Iid.loc oid = (st oid).iid
  · rw [hkk]
    exact ⟨fN, fM, fD⟩
  · obtain ⟨oN, oM, oD⟩ := popIid_other_ok s _ v hr (Iid.loc oid) hkk
    refine ⟨?_, ?_, ?_⟩
    · rw [oN]
      rcases hval : odGet s.bNew (Iid.loc oid) with _ | o
      · rfl
      · exfalso
        have hsy := hinv.syncN _ o hval
        have ho := hinv.locOwn o oid hsy
        subst ho
        exact hkk hsy.symm
    · rw [oM]
      rcases hval : odGet s.bModified (Iid.loc oid) with _ | o
      · rfl
      · exfalso
        have hsy := hinv.syncM _ o hval
        have ho := hinv.locOwn o oid hsy
        subst ho
        exact hkk hsy.symm
    · rw [oD]
      rcases hval : odGet s.bDeleted (Iid.loc oid) with _ | o
      · rfl
      · exfalso
        have hsy := hinv.syncD _ o hval
        have ho := hinv.locOwn o oid hsy
        subst ho
        exact hkk hsy.symm

/-- The tail of a safe `add` preserves the invariant. -/
theorem addObjCont_inv {st : Store} {s1 : SessionModel} (oid : Nat)
    (modified : Bool) (p : Option Bool) (f : Bool)
    (hinv : SMInv ⟨st, s1⟩)
    (hnN : ∀ k, odGet s1.bNew k ≠ some oid)
    (hnM : ∀ k, odGet s1.bModified k ≠ some oid)
    (hnD : ∀ k, odGet s1.bDeleted k ≠ some oid)
    (hf0N : odGet s1.bNew ((st oid).iid) = none)
    (hf0M : odGet s1.bModified ((st oid).iid) = none)
    (hf0D : odGet s1.bDeleted ((st oid).iid) = none)
    (hfLN : odGet s1.bNew (Iid.loc oid) = none)
    (hfLM : odGet s1.bModified (Iid.loc oid) = none)
    (hfLD : odGet s1.bDeleted (Iid.loc oid) = none)
    (hsafe : ¬(p = some true ∧ modified = true)) :
    SMInv (addObjCont st s1 oid (st oid) modified p f).1 := by
  have hloc : ∀ o', (restated (st oid) oid p f).iid = Iid.loc o' → o' = oid := by
    intro o' h
    rcases restated_loc (st oid) oid p f o' h with h1 | h1
    · exact h1
    · exact hinv.locOwn oid o' h1
  have hinv1 : SMInv ⟨st.set oid (restated (st oid) oid p f), s1⟩ :=
    hinv.storeUpdNoval oid _ hnN hnM hnD hloc
  unfold addObjCont addBucket
  dsimp only
  by_cases hpers : (restated (st oid) oid p f).persistent
  · rw [if_pos hpers]
    by_cases hm : modified
    · rw [if_pos hm]
      have hkey : (restated (st oid) oid p f).iid = Iid.loc oid ∨
          (restated (st oid) oid p f).iid = (st oid).iid := by
        apply restated_iid_safe
        intro hc
        exact hsafe ⟨hc.1, hm⟩
      rcases hkey with hk | hk
      · exact hinv1.insertModified _ oid (by rw [hk]; exact hfLN) (by rw [hk]; exact hfLD)
          (by rw [Store.set_self])
      · exact hinv1.insertModified _ oid (by rw [hk]; exact hf0N) (by rw [hk]; exact hf0D)
          (by rw [Store.set_self])
    · rw [if_neg hm]
      exact hinv1
  · rw [if_neg hpers]
    have hkey : (restated (st oid) oid p f).iid = Iid.loc oid ∨
        (restated (st oid) oid p f).iid = (st oid).iid := by
      apply restated_iid_safe
      intro hc
      exact hpers hc.2
    rcases hkey with hk | hk
    · exact hinv1.insertNew _ oid (by rw [hk]; exact hfLM) (by rw [hk]; exact hfLD)
        (by rw [Store.set_self])
    · exact hinv1.insertNew _ oid (by rw [hk]; exact hf0M) (by rw [hk]; exact hf0D)
        (by rw [Store.set_self])

/-- A safe `SessionModel.add` preserves the invariant (also on error paths)
and the class of the container. -/
theorem addObj_pres (ss : SMState) (oid : Nat) (modified : Bool) (p : Option Bool) (f : Bool)
    (hsafe : ¬(p = some true ∧ modified = true)) (hinv : SMInv ss) :
    SMInv (SessionModel.addObj ss oid modified p f).1 ∧
      ((SessionModel.addObj ss oid modified p f).1).sm.isStructure = ss.sm.isStructure := by
  obtain ⟨st, s⟩ := ss
  unfold SessionModel.addObj
  dsimp only
  by_cases hdel : (st oid).deleted
  · rw [if_pos hdel]
    exact ⟨hinv, rfl⟩
  · rw [if_neg hdel]
    rcases hr : (s.popIid ((st oid).iid)).2 with e | v
    · refine ⟨popIid_inv _ hinv, ?_⟩
      rw [popIid_eq]
    · have hinv1 : SMInv ⟨st, (s.popIid ((st oid).iid)).1⟩ := popIid_inv _ hinv
      have hnoval := popIid_noval oid hinv v hr
      have hfree := popIid_free_ok s ((st oid).iid) v hr
      have hfloc := popIid_free_loc oid hinv v hr
      refine ⟨?_, ?_⟩
      · exact addObjCont_inv oid modified p f hinv1 hnoval.1 hnoval.2.1 hnoval.2.2
          hfree.1 hfree.2.1 hfree.2.2 hfloc.1 hfloc.2.1 hfloc.2.2 hsafe
      · unfold addObjCont addBucket
        dsimp only
        split_ifs <;> rw [popIid_eq]

/-- `SessionModel.delete` preserves the invariant and the container class. -/
theorem delete_pres (ss : SMState) (oid sessionId : Nat) (hinv : SMInv ss) :
    SMInv (SessionModel.delete ss oid sessionId).1 ∧
      ((SessionModel.delete ss oid sessionId).1).sm.isStructure = ss.sm.isStructure := by
  obtain ⟨st, s⟩ := ss
  unfold SessionModel.delete
  dsimp only
  rcases hr : (s.popIid ((st oid).iid)).2 with e | instOpt
  · refine ⟨popIid_inv _ hinv, ?_⟩
    rw [popIid_eq]
  · dsimp only
    have hinv1 : SMInv ⟨st, (s.popIid ((st oid).iid)).1⟩ := popIid_inv _ hinv
    have hfree := popIid_free_ok s _ instOpt hr
    have htiid : (st (instOpt.getD oid)).iid = (st oid).iid := by
      rcases instOpt with _ | t
      · rfl
      · rcases popIid_val_some s _ t hr with h | h | h
        · exact hinv.syncN _ t h
        · exact hinv.syncM _ t h
        · exact hinv.syncD _ t h
    by_cases hpers : (st (instOpt.getD oid)).persistent
    · rw [if_pos hpers]
      have hinv2 : SMInv ⟨st.set (instOpt.getD oid)
          { st (instOpt.getD oid) with deleted := true, session := some sessionId },
          (s.popIid ((st oid).iid)).1⟩ := hinv1.storeUpdSame _ _ rfl
      refine ⟨?_, ?_⟩
      · exact hinv2.insertDeleted _ (instOpt.getD oid)
          (by rw [htiid]; exact hfree.1) (by rw [htiid]; exact hfree.2.1)
          (by rw [Store.set_self])
      · rw [popIid_eq]
    · rw [if_neg hpers]
      refine ⟨hinv1.storeUpdSame _ _ rfl, ?_⟩
      rw [popIid_eq]

/-- `SessionModel.pop` preserves the invariant and the container class. -/
theorem popArg_pres (ss : SMState) (arg : Sum Nat Iid) (hinv : SMInv ss) :
    SMInv (SessionModel.popArg ss arg).1 ∧
      ((SessionModel.popArg ss arg).1).sm.isStructure = ss.sm.isStructure := by
  obtain ⟨st, s⟩ := ss
  unfold SessionModel.popArg
  refine ⟨popIid_inv _ hinv, ?_⟩
  rw [popIid_eq]

/-- `SessionModel.expunge` preserves the invariant and the container class. -/
theorem expunge_pres (ss : SMState) (arg : Sum Nat Iid) (hinv : SMInv ss) :
    SMInv (SessionModel.expunge ss arg).1 ∧
      ((SessionModel.expunge ss arg).1).sm.isStructure = ss.sm.isStructure := by
  obtain ⟨st, s⟩ := ss
  unfold SessionModel.expunge
  dsimp only
  rcases hr : (s.popIid (popTarget st arg)).2 with e | instOpt
  · refine ⟨popIid_inv _ hinv, ?_⟩
    rw [popIid_eq]
  · rcases instOpt with _ | oid
    · refine ⟨popIid_inv _ hinv, ?_⟩
      rw [popIid_eq]
    · refine ⟨(popIid_inv _ hinv).storeUpdSame oid _ rfl, ?_⟩
      rw [popIid_eq]

/-- `postCommitSave` (the save path of `post_commit`) preserves the
invariant of a plain container. -/
theorem postCommitSave_pres (ss1 : SMState) (oid : Nat) (r : IResult)
    (hstruct : ss1.sm.isStructure = false) (hinv : SMInv ss1) :
    SMInv (postCommitSave ss1 oid r).1 ∧
      ((postCommitSave ss1 oid r).1).sm.isStructure = false := by
  have hinvA : SMInv (pkAssigned ss1 oid r.id) := by
    obtain ⟨st, s⟩ := ss1
    exact hinv.storeUpdSame oid _ rfl
  have hstructA : (pkAssigned ss1 oid r.id).sm.isStructure = false := hstruct
  have haddEq : SessionModel.add (pkAssigned ss1 oid r.id) oid false (some r.persistent) false
      = SessionModel.addObj (pkAssigned ss1 oid r.id) oid false (some r.persistent) false := by
    unfold SessionModel.add
    rw [hstructA]
    rfl
  have hadd := addObj_pres (pkAssigned ss1 oid r.id) oid false (some r.persistent) false
    (by simp) hinvA
  unfold postCommitSave
  rw [haddEq]
  rcases hr2 : (SessionModel.addObj (pkAssigned ss1 oid r.id) oid false
      (some r.persistent) false).2 with e | u
  · exact ⟨hadd.1, hadd.2.trans hstructA⟩
  · refine ⟨?_, hadd.2.trans hstructA⟩
    exact hadd.1.storeUpdSame oid _ rfl

/-- `postCommitOne` preserves the invariant of a plain container. -/
theorem postCommitOne_pres (ss : SMState) (r : IResult)
    (hstruct : ss.sm.isStructure = false) (hinv : SMInv ss) :
    SMInv (postCommitOne ss r).1 ∧ ((postCommitOne ss r).1).sm.isStructure = false := by
  obtain ⟨st, s⟩ := ss
  unfold postCommitOne
  dsimp only
  rcases hr : (s.popIid r.iid).2 with e | instOpt
  · refine ⟨popIid_inv _ hinv, ?_⟩
    rw [popIid_eq]
    exact hstruct
  · dsimp only
    by_cases hdel : r.deleted
    · rw [if_pos hdel]
      refine ⟨popIid_inv _ hinv, ?_⟩
      rw [popIid_eq]
      exact hstruct
    · rw [if_neg hdel]
      rcases instOpt with _ | oid
      · refine ⟨popIid_inv _ hinv, ?_⟩
        rw [popIid_eq]
        exact hstruct
      · apply postCommitSave_pres
        · show ((s.popIid r.iid).1).isStructure = false
          rw [popIid_eq]
          exact hstruct
        · exact popIid_inv _ hinv

/-- The `post_commit` loop preserves the invariant of a plain container. -/
theorem postCommitRun_pres :
    ∀ (results : List RItem) (ss : SMState) (ins del : List Nat) (errs : List String),
    ss.sm.isStructure = false → SMInv ss →
    SMInv (SessionModel.postCommitRun ss results ins del errs).1 ∧
      ((SessionModel.postCommitRun ss results ins del errs).1).sm.isStructure = false
  | [], ss, ins, del, errs, hstruct, hinv => ⟨hinv, hstruct⟩
  | RItem.err m :: rest, ss, ins, del, errs, hstruct, hinv => ⟨hinv, hstruct⟩
  | RItem.res r :: rest, ss, ins, del, errs, hstruct, hinv => by
    have h1 := postCommitOne_pres ss r hstruct hinv
    simp only [SessionModel.postCommitRun]
    rcases hr : (postCommitOne ss r).2 with e | o
    · exact h1
    · rcases o with _ | ⟨oid, savedf⟩
      · exact postCommitRun_pres rest _ ins (r.id :: del) errs h1.2 h1.1
      · dsimp only
        by_cases hs : savedf
        · rw [if_pos hs]
          exact postCommitRun_pres rest _ (oid :: ins) del errs h1.2 h1.1
        · rw [if_neg hs]
          exact postCommitRun_pres rest _ ins del errs h1.2 h1.1

/-- Any single safe operation preserves the invariant of a plain container. -/
theorem runOp_pres (ss : SMState) (op : SMOp) (hsafe : op.safeB = true)
    (hstruct : ss.sm.isStructure = false) (hinv : SMInv ss) :
    SMInv (runOp ss op) ∧ (runOp ss op).sm.isStructure = false := by
  cases op with
  | addOp oid m p f =>
    have haddEq : SessionModel.add ss oid m p f = SessionModel.addObj ss oid m p f := by
      unfold SessionModel.add
      rw [hstruct]
      rfl
    have hsafe' : ¬(p = some true ∧ m = true) := by
      intro hc
      rw [hc.1, hc.2] at hsafe
      simp [SMOp.safeB] at hsafe
    have h := addObj_pres ss oid m p f hsafe' hinv
    simp only [runOp]
    rw [haddEq]
    exact ⟨h.1, h.2.trans hstruct⟩
  | delOp oid sid =>
    have h := delete_pres ss oid sid hinv
    exact ⟨h.1, h.2.trans hstruct⟩
  | popOp a =>
    have h := popArg_pres ss a hinv
    exact ⟨h.1, h.2.trans hstruct⟩
  | expungeOp a =>
    have h := expunge_pres ss a hinv
    exact ⟨h.1, h.2.trans hstruct⟩
  | postCommitOp rs =>
    exact postCommitRun_pres rs ss [] [] [] hstruct hinv

/-- A sequence of safe operations preserves the invariant of a plain
container. -/
theorem runOps_pres :
    ∀ (ops : List SMOp) (ss : SMState), (∀ op ∈ ops, op.safeB = true) →
    ss.sm.isStructure = false → SMInv ss →
    SMInv (runOps ss ops) ∧ (runOps ss ops).sm.isStructure = false
  | [], ss, _, hstruct, hinv => ⟨hinv, hstruct⟩
  | op :: rest, ss, hsafe, hstruct, hinv => by
    have h := runOp_pres ss op (hsafe op (by simp)) hstruct hinv
    exact runOps_pres rest (runOp ss op) (fun o ho => hsafe o (by simp [ho])) h.2 h.1

/-! ## Forward computation lemmas -/

theorem popStep_none_eq (b : List (Iid × Nat)) (iid : Iid) (acc : Option Nat)
    (h : odGet b iid = none) : popStep b iid acc = (b, .ok acc) := by
  unfold popStep
  rw [h]

theorem popStep_found_eq (b : List (Iid × Nat)) (iid : Iid) (t : Nat)
    (h : odGet b iid = some t) : popStep b iid none = (odRemove b iid, .ok (some t)) := by
  unfold popStep
  rw [h]

theorem popStep_same_eq (b : List (Iid × Nat)) (iid : Iid) (t : Nat)
    (h : odGet b iid = some t) :
    popStep b iid (some t) = (odRemove b iid, .ok (some t)) := by
  unfold popStep
  rw [h]
  simp

theorem popStep_conflict_eq (b : List (Iid × Nat)) (iid : Iid) (t w : Nat)
    (h : odGet b iid = some w) (hne : w ≠ t) :
    popStep b iid (some t) = (odRemove b iid, .error (Err.valueError duplicatedMsg)) := by
  unfold popStep
  rw [h]
  simp [hne]

/-- `pop` of an absent iid succeeds with `None` and is the identity. -/
theorem popIid_none_eq (s : SessionModel) (iid : Iid)
    (hN : odGet s.bNew iid = none) (hM : odGet s.bModified iid = none)
    (hD : odGet s.bDeleted iid = none) : s.popIid iid = (s, .ok none) := by
  rw [popIid_eq]
  have e1 := popStep_none_eq s.bNew iid none hN
  have e2 := popStep_none_eq s.bModified iid none hM
  have e3 := popStep_none_eq s.bDeleted iid none hD
  rw [popCore_eq_ok s.bNew s.bModified s.bDeleted iid none none (by rw [e1]) (by rw [e2]),
      e1, e2, e3]

/-- The `.2` outcome of `pop` when every bucket holding the iid agrees on
the instance. -/
theorem popIid_agree_eq (s : SessionModel) (iid : Iid) (t : Nat)
    (hN : odGet s.bNew iid = none ∨ odGet s.bNew iid = some t)
    (hM : odGet s.bModified iid = none ∨ odGet s.bModified iid = some t)
    (hD : odGet s.bDeleted iid = none ∨ odGet s.bDeleted iid = some t)
    (hsome : odGet s.bNew iid = some t ∨ odGet s.bModified iid = some t ∨
      odGet s.bDeleted iid = some t) :
    (s.popIid iid).2 = .ok (some t) := by
  rw [popIid_eq]
  rcases hN with hN | hN
  · have e1 := popStep_none_eq s.bNew iid none hN
    rcases hM with hM | hM
    · have e2 := popStep_none_eq s.bModified iid none hM
      rcases hD with hD | hD
      · rcases hsome with h | h | h
        · rw [hN] at h; cases h
        · rw [hM] at h; cases h
        · rw [hD] at h; cases h
      · have e3 := popStep_found_eq s.bDeleted iid t hD
        rw [popCore_eq_ok s.bNew s.bModified s.bDeleted iid none none
            (by rw [e1]) (by rw [e2]), e3]
    · have e2 := popStep_found_eq s.bModified iid t hM
      rcases hD with hD | hD
      · have e3 := popStep_none_eq s.bDeleted iid (some t) hD
        rw [popCore_eq_ok s.bNew s.bModified s.bDeleted iid none (some t)
            (by rw [e1]) (by rw [e2]), e3]
      · have e3 := popStep_same_eq s.bDeleted iid t hD
        rw [popCore_eq_ok s.bNew s.bModified s.bDeleted iid none (some t)
            (by rw [e1]) (by rw [e2]), e3]
  · have e1 := popStep_found_eq s.bNew iid t hN
    rcases hM with hM | hM
    · have e2 := popStep_none_eq s.bModified iid (some t) hM
      rcases hD with hD | hD
      · have e3 := popStep_none_eq s.bDeleted iid (some t) hD
        rw [popCore_eq_ok s.bNew s.bModified s.bDeleted iid (some t) (some t)
            (by rw [e1]) (by rw [e2]), e3]
      · have e3 := popStep_same_eq s.bDeleted iid t hD
        rw [popCore_eq_ok s.bNew s.bModified s.bDeleted iid (some t) (some t)
            (by rw [e1]) (by rw [e2]), e3]
    · have e2 := popStep_same_eq s.bModified iid t hM
      rcases hD with hD | hD
      · have e3 := popStep_none_eq s.bDeleted iid (some t) hD
        rw [popCore_eq_ok s.bNew s.bModified s.bDeleted iid (some t) (some t)
            (by rw [e1]) (by rw [e2]), e3]
      · have e3 := popStep_same_eq s.bDeleted iid t hD
        rw [popCore_eq_ok s.bNew s.bModified s.bDeleted iid (some t) (some t)
            (by rw [e1]) (by rw [e2]), e3]

/-- `pop` raises the duplicated-iid error when `_new` and `_modified`
disagree. -/
theorem popIid_conflictNM_eq (s : SessionModel) (iid : Iid) (v w : Nat)
    (hN : odGet s.bNew iid = some v) (hM : odGet s.bModified iid = some w)
    (hvw : w ≠ v) :
    (s.popIid iid).2 = .error (Err.valueError duplicatedMsg) := by
  rw [popIid_eq]
  have e1 := popStep_found_eq s.bNew iid v hN
  have e2 := popStep_conflict_eq s.bModified iid v w hM hvw
  rw [popCore_eq_err2 s.bNew s.bModified s.bDeleted iid (some v)
      (Err.valueError duplicatedMsg) (by rw [e1]) (by rw [e2])]

/-- `pop` raises the duplicated-iid error when `_new` and `_deleted`
disagree (`_modified` not holding the iid). -/
theorem popIid_conflictND_eq (s : SessionModel) (iid : Iid) (v w : Nat)
    (hN : odGet s.bNew iid = some v) (hM : odGet s.bModified iid = none)
    (hD : odGet s.bDeleted iid = some w) (hvw : w ≠ v) :
    (s.popIid iid).2 = .error (Err.valueError duplicatedMsg) := by
  rw [popIid_eq]
  have e1 := popStep_found_eq s.bNew iid v hN
  have e2 := popStep_none_eq s.bModified iid (some v) hM
  have e3 := popStep_conflict_eq s.bDeleted iid v w hD hvw
  rw [popCore_eq_ok s.bNew s.bModified s.bDeleted iid (some v) (some v)
      (by rw [e1]) (by rw [e2]), e3]

/-- `pop` raises the duplicated-iid error when `_modified` and `_deleted`
disagree (`_new` not holding the iid). -/
theorem popIid_conflictMD_eq (s : SessionModel) (iid : Iid) (v w : Nat)
    (hN : odGet s.bNew iid = none) (hM : odGet s.bModified iid = some v)
    (hD : odGet s.bDeleted iid = some w) (hvw : w ≠ v) :
    (s.popIid iid).2 = .error (Err.valueError duplicatedMsg) := by
  rw [popIid_eq]
  have e1 := popStep_none_eq s.bNew iid none hN
  have e2 := popStep_found_eq s.bModified iid v hM
  have e3 := popStep_conflict_eq s.bDeleted iid v w hD hvw
  rw [popCore_eq_ok s.bNew s.bModified s.bDeleted iid none (some v)
      (by rw [e1]) (by rw [e2]), e3]

theorem expunge_eq_none (ss : SMState) (arg : Sum Nat Iid)
    (h : (ss.sm.popIid (popTarget ss.store arg)).2 = .ok none) :
    SessionModel.expunge ss arg =
      ({ ss with sm := (ss.sm.popIid (popTarget ss.store arg)).1 },
       .error (Err.attributeError noneSessionMsg)) := by
  unfold SessionModel.expunge
  rw [h]

theorem expunge_eq_some (ss : SMState) (arg : Sum Nat Iid) (t : Nat)
    (h : (ss.sm.popIid (popTarget ss.store arg)).2 = .ok (some t)) :
    SessionModel.expunge ss arg =
      ({ store := ss.store.set t { ss.store t with session := none },
         sm := (ss.sm.popIid (popTarget ss.store arg)).1 }, .ok t) := by
  unfold SessionModel.expunge
  rw [h]

/-! ## Claim C6 -/

/-- **C6.**  `SessionModel.pop` removes the given iid (or the iid of the
given instance) from every bucket and returns the removed instance — `None`
when the iid keys no bucket (the buckets left untouched); and when the same
iid maps to two distinct object identities in two different buckets, `pop`
fails with the duplicated-identity `ValueError` (the error the spec calls
`DuplicateIdentity`). -/
theorem c6_pop_contract (ss : SMState) (arg : Sum Nat Iid) :
    ((odGet ss.sm.bNew (popTarget ss.store arg) = none ∧
      odGet ss.sm.bModified (popTarget ss.store arg) = none ∧
      odGet ss.sm.bDeleted (popTarget ss.store arg) = none) →
      SessionModel.popArg ss arg = (ss, .ok none)) ∧
    (∀ t, (odGet ss.sm.bNew (popTarget ss.store arg) = none ∨
           odGet ss.sm.bNew (popTarget ss.store arg) = some t) →
          (odGet ss.sm.bModified (popTarget ss.store arg) = none ∨
           odGet ss.sm.bModified (popTarget ss.store arg) = some t) →
          (odGet ss.sm.bDeleted (popTarget ss.store arg) = none ∨
           odGet ss.sm.bDeleted (popTarget ss.store arg) = some t) →
          (odGet ss.sm.bNew (popTarget ss.store arg) = some t ∨
           odGet ss.sm.bModified (popTarget ss.store arg) = some t ∨
           odGet ss.sm.bDeleted (popTarget ss.store arg) = some t) →
          (SessionModel.popArg ss arg).2 = .ok (some t) ∧
          odGet ((SessionModel.popArg ss arg).1).sm.bNew (popTarget ss.store arg) = none ∧
          odGet ((SessionModel.popArg ss arg).1).sm.bModified (popTarget ss.store arg) = none ∧
          odGet ((SessionModel.popArg ss arg).1).sm.bDeleted (popTarget ss.store arg) = none) ∧
    (∀ v w, odGet ss.sm.bNew (popTarget ss.store arg) = some v →
            odGet ss.sm.bModified (popTarget ss.store arg) = some w → w ≠ v →
            (SessionModel.popArg ss arg).2 = .error (Err.valueError duplicatedMsg)) ∧
    (∀ v w, odGet ss.sm.bNew (popTarget ss.store arg) = some v →
            odGet ss.sm.bModified (popTarget ss.store arg) = none →
            odGet ss.sm.bDeleted (popTarget ss.store arg) = some w → w ≠ v →
            (SessionModel.popArg ss arg).2 = .error (Err.valueError duplicatedMsg)) ∧
    (∀ v w, odGet ss.sm.bNew (popTarget ss.store arg) = none →
            odGet ss.sm.bModified (popTarget ss.store arg) = some v →
            odGet ss.sm.bDeleted (popTarget ss.store arg) = some w → w ≠ v →
            (SessionModel.popArg ss arg).2 = .error (Err.valueError duplicatedMsg)) := by
  obtain ⟨st, s⟩ := ss
  refine ⟨?_, ?_, ?_, ?_, ?_⟩
  · rintro ⟨hN, hM, hD⟩
    unfold SessionModel.popArg
    rw [popIid_none_eq s _ hN hM hD]
  · intro t hN hM hD hsome
    have h2 := popIid_agree_eq s (popTarget st arg) t hN hM hD hsome
    have hfree := popIid_free_ok s (popTarget st arg) (some t) h2
    exact ⟨h2, hfree.1, hfree.2.1, hfree.2.2⟩
  · intro v w hN hM hvw
    exact popIid_conflictNM_eq s _ v w hN hM hvw
  · intro v w hN hM hD hvw
    exact popIid_conflictND_eq s _ v w hN hM hD hvw
  · intro v w hN hM hD hvw
    exact popIid_conflictMD_eq s _ v w hN hM hD hvw

/-- A heap of fresh instances, one per object identity. -/
def wStore : Store :=
  fun o => { meta := 0, pkattr := none, dbpk := none, iid := Iid.loc o,
             persistent := false, deleted := false, action := Act.noact,
             score := none, session := none }

/-- An empty plain `SessionModel` over one backend pair. -/
def wSM : SessionModel :=
  { meta := 0, be := 0, rbe := 0, isStructure := false, bNew := [],
    bModified := [], bDeleted := [], delete_query := [], queries := [] }

def c6w1 : SMState := { store := wStore, sm := wSM }

def c6w2 : SMState := { store := wStore, sm := { wSM with bModified := [(Iid.pk 3, 5)] } }

def c6w3 : SMState :=
  { store := wStore,
    sm := { wSM with bNew := [(Iid.pk 3, 5)], bModified := [(Iid.pk 3, 6)] } }

def c6w4 : SMState :=
  { store := wStore,
    sm := { wSM with bNew := [(Iid.pk 3, 5)], bDeleted := [(Iid.pk 3, 6)] } }

def c6w5 : SMState :=
  { store := wStore,
    sm := { wSM with bModified := [(Iid.pk 3, 5)], bDeleted := [(Iid.pk 3, 6)] } }

theorem c6_pop_contract_witness :
    SessionModel.popArg c6w1 (Sum.inr (Iid.pk 3)) = (c6w1, .ok none) ∧
    (SessionModel.popArg c6w2 (Sum.inr (Iid.pk 3))).2 = .ok (some 5) ∧
    (SessionModel.popArg c6w3 (Sum.inr (Iid.pk 3))).2 =
      .error (Err.valueError duplicatedMsg) ∧
    (SessionModel.popArg c6w4 (Sum.inr (Iid.pk 3))).2 =
      .error (Err.valueError duplicatedMsg) ∧
    (SessionModel.popArg c6w5 (Sum.inr (Iid.pk 3))).2 =
      .error (Err.valueError duplicatedMsg) :=
  ⟨(c6_pop_contract c6w1 (Sum.inr (Iid.pk 3))).1 (by decide),
   ((c6_pop_contract c6w2 (Sum.inr (Iid.pk 3))).2.1 5 (by decide) (by decide)
      (by decide) (by decide)).1,
   (c6_pop_contract c6w3 (Sum.inr (Iid.pk 3))).2.2.1 5 6 (by decide) (by decide) (by decide),
   (c6_pop_contract c6w4 (Sum.inr (Iid.pk 3))).2.2.2.1 5 6 (by decide) (by decide)
      (by decide) (by decide),
   (c6_pop_contract c6w5 (Sum.inr (Iid.pk 3))).2.2.2.2 5 6 (by decide) (by decide)
      (by decide) (by decide)⟩

/-! ## Claim C10 -/

/-- **C10.**  `SessionModel.expunge` requires presence: for an instance (or
iid) staged in some bucket, it removes the iid from all buckets, severs the
instance's session link and returns the instance; for an iid in no bucket,
`pop` returns `None` and the subsequent `instance.session = None` assignment
dereferences `None`, so `expunge` does not return `None` but raises. -/
theorem c10_expunge_presence (ss : SMState) (arg : Sum Nat Iid) :
    (∀ t, (odGet ss.sm.bNew (popTarget ss.store arg) = none ∨
           odGet ss.sm.bNew (popTarget ss.store arg) = some t) →
          (odGet ss.sm.bModified (popTarget ss.store arg) = none ∨
           odGet ss.sm.bModified (popTarget ss.store arg) = some t) →
          (odGet ss.sm.bDeleted (popTarget ss.store arg) = none ∨
           odGet ss.sm.bDeleted (popTarget ss.store arg) = some t) →
          (odGet ss.sm.bNew (popTarget ss.store arg) = some t ∨
           odGet ss.sm.bModified (popTarget ss.store arg) = some t ∨
           odGet ss.sm.bDeleted (popTarget ss.store arg) = some t) →
          (SessionModel.expunge ss arg).2 = .ok t ∧
          (((SessionModel.expunge ss arg).1).store t).session = none ∧
          odGet ((SessionModel.expunge ss arg).1).sm.bNew (popTarget ss.store arg) = none ∧
          odGet ((SessionModel.expunge ss arg).1).sm.bModified (popTarget ss.store arg) = none ∧
          odGet ((SessionModel.expunge ss arg).1).sm.bDeleted (popTarget ss.store arg) = none) ∧
    ((odGet ss.sm.bNew (popTarget ss.store arg) = none ∧
      odGet ss.sm.bModified (popTarget ss.store arg) = none ∧
      odGet ss.sm.bDeleted (popTarget ss.store arg) = none) →
      SessionModel.expunge ss arg = (ss, .error (Err.attributeError noneSessionMsg))) := by
  constructor
  · intro t hN hM hD hsome
    have h2 := popIid_agree_eq ss.sm (popTarget ss.store arg) t hN hM hD hsome
    have hfree := popIid_free_ok ss.sm (popTarget ss.store arg) (some t) h2
    rw [expunge_eq_some ss arg t h2]
    refine ⟨rfl, ?_, hfree.1, hfree.2.1, hfree.2.2⟩
    dsimp only
    rw [Store.set_self]
  · rintro ⟨hN, hM, hD⟩
    have hp := popIid_none_eq ss.sm (popTarget ss.store arg) hN hM hD
    rw [expunge_eq_none ss arg (by rw [hp]), hp]

def c10w1 : SMState := { store := wStore, sm := { wSM with bNew := [(Iid.loc 4, 4)] } }

theorem c10_expunge_presence_witness :
    ((SessionModel.expunge c10w1 (Sum.inl 4)).2 = .ok 4 ∧
     (((SessionModel.expunge c10w1 (Sum.inl 4)).1).store 4).session = none ∧
     odGet ((SessionModel.expunge c10w1 (Sum.inl 4)).1).sm.bNew
       (popTarget c10w1.store (Sum.inl 4)) = none ∧
     odGet ((SessionModel.expunge c10w1 (Sum.inl 4)).1).sm.bModified
       (popTarget c10w1.store (Sum.inl 4)) = none ∧
     odGet ((SessionModel.expunge c10w1 (Sum.inl 4)).1).sm.bDeleted
       (popTarget c10w1.store (Sum.inl 4)) = none) ∧
    SessionModel.expunge c6w1 (Sum.inr (Iid.pk 3)) =
      (c6w1, .error (Err.attributeError noneSessionMsg)) :=
  ⟨(c10_expunge_presence c10w1 (Sum.inl 4)).1 4 (by decide) (by decide) (by decide)
     (by decide),
   (c10_expunge_presence c6w1 (Sum.inr (Iid.pk 3))).2 (by decide)⟩

theorem addObj_eq_deleted (ss : SMState) (oid : Nat) (m : Bool) (p : Option Bool) (f : Bool)
    (hd : (ss.store oid).deleted = true) :
    SessionModel.addObj ss oid m p f = (ss, .error (Err.valueError deletedMsg)) := by
  unfold SessionModel.addObj
  rw [hd]
  simp

theorem addObj_eq_cont (ss : SMState) (oid : Nat) (m : Bool) (p : Option Bool) (f : Bool)
    (hd : (ss.store oid).deleted = false) (v : Option Nat)
    (hpop : (ss.sm.popIid ((ss.store oid).iid)).2 = .ok v) :
    SessionModel.addObj ss oid m p f =
      addObjCont ss.store ((ss.sm.popIid ((ss.store oid).iid)).1) oid (ss.store oid)
        m p f := by
  unfold SessionModel.addObj
  rw [hd, hpop]
  simp

theorem addObj_eq_poperr (ss : SMState) (oid : Nat) (m : Bool) (p : Option Bool) (f : Bool)
    (hd : (ss.store oid).deleted = false) (e : Err)
    (hpop : (ss.sm.popIid ((ss.store oid).iid)).2 = .error e) :
    SessionModel.addObj ss oid m p f =
      ({ ss with sm := (ss.sm.popIid ((ss.store oid).iid)).1 }, .error e) := by
  unfold SessionModel.addObj
  rw [hd, hpop]
  simp

theorem addObjCont_eq_nomod (st : Store) (s1 : SessionModel) (oid : Nat)
    (inst : ModelInstance) (p : Option Bool) (f : Bool)
    (hpers : (restated inst oid p f).persistent = true) :
    addObjCont st s1 oid inst false p f =
      ({ store := st.set oid (restated inst oid p f), sm := s1 }, .ok oid) := by
  unfold addObjCont addBucket
  rw [hpers]
  simp

theorem restated_default (inst : ModelInstance) (oid : Nat) (f : Bool)
    (hp : inst.persistent = true) :
    restated inst oid none f =
      mkState inst oid (some inst.iid) (if f then Act.update else Act.noact) := by
  unfold restated
  simp [hp]

theorem mkState_fixpoint (inst : ModelInstance) (oid : Nat)
    (hpa : inst.persistent = inst.dbpk.isSome) (ha : inst.action = Act.noact) :
    mkState inst oid (some inst.iid) Act.noact = inst := by
  cases inst
  simp_all [mkState, stateIid]

/-! ## Claim C7 -/

/-- **C7 (amended).**  For a persistent instance whose state is consistent
(`dbpk` present) and not deleted, `add(instance, modified=False)` is
idempotent: a second call returns the first call's state unchanged.  When
the instance's iid keys no bucket, the call leaves the buckets untouched (a
no-op presence assertion).  (The unamended claim fails because the *first*
call removes an instance that is currently staged: see the
counterexample.) -/
theorem c7_unmodified_add (ss : SMState) (oid : Nat) (v : Option Nat)
    (hp : (ss.store oid).persistent = true)
    (hdb : ((ss.store oid).dbpk).isSome = true)
    (hd : (ss.store oid).deleted = false)
    (hpop : (ss.sm.popIid ((ss.store oid).iid)).2 = .ok v) :
    SessionModel.addObj (SessionModel.addObj ss oid false none false).1 oid false none false
      = ((SessionModel.addObj ss oid false none false).1, .ok oid) ∧
    ((odGet ss.sm.bNew ((ss.store oid).iid) = none ∧
      odGet ss.sm.bModified ((ss.store oid).iid) = none ∧
      odGet ss.sm.bDeleted ((ss.store oid).iid) = none) →
      ((SessionModel.addObj ss oid false none false).1).sm = ss.sm) := by
  obtain ⟨st, s⟩ := ss
  dsimp only at hp hdb hd hpop ⊢
  have hre : restated (st oid) oid none false
      = mkState (st oid) oid (some ((st oid).iid)) Act.noact := by
    rw [restated_default (st oid) oid false hp]
    rfl
  have hpers1 : (restated (st oid) oid none false).persistent = true := by
    rw [hre]
    exact hdb
  have e1 : SessionModel.addObj ⟨st, s⟩ oid false none false
      = ({ store := st.set oid (restated (st oid) oid none false),
           sm := (s.popIid ((st oid).iid)).1 }, .ok oid) := by
    rw [addObj_eq_cont ⟨st, s⟩ oid false none false hd v hpop]
    exact addObjCont_eq_nomod st _ oid (st oid) none false hpers1
  have hfree := popIid_free_ok s ((st oid).iid) v hpop
  constructor
  · rw [e1]
    have hself : (st.set oid (restated (st oid) oid none false)) oid
        = restated (st oid) oid none false := Store.set_self st oid _
    have hiid1 : ((st.set oid (restated (st oid) oid none false)) oid).iid
        = (st oid).iid := by
      rw [hself, hre]
      rfl
    have hd2 : ((st.set oid (restated (st oid) oid none false)) oid).deleted = false := by
      rw [hself, hre]
      exact hd
    have hpopeq : ((s.popIid ((st oid).iid)).1).popIid ((st oid).iid)
        = ((s.popIid ((st oid).iid)).1, .ok none) :=
      popIid_none_eq _ _ hfree.1 hfree.2.1 hfree.2.2
    have hpop2 : (((s.popIid ((st oid).iid)).1).popIid
        (((st.set oid (restated (st oid) oid none false)) oid).iid)).2 = .ok none := by
      rw [hiid1, hpopeq]
    have e2 := addObj_eq_cont
      ⟨st.set oid (restated (st oid) oid none false), (s.popIid ((st oid).iid)).1⟩
      oid false none false hd2 none hpop2
    rw [e2]
    dsimp only
    have hpop1' : (((s.popIid ((st oid).iid)).1).popIid
        (((st.set oid (restated (st oid) oid none false)) oid).iid)).1
        = (s.popIid ((st oid).iid)).1 := by
      rw [hiid1, hpopeq]
    rw [hpop1', hself]
    have hre2 : restated (restated (st oid) oid none false) oid none false
        = restated (st oid) oid none false := by
      rw [restated_default _ oid false hpers1]
      exact mkState_fixpoint _ oid (by rw [hre]; rfl) (by rw [hre]; rfl)
    have hpers2 : (restated (restated (st oid) oid none false) oid none false).persistent
        = true := by
      rw [hre2]
      exact hpers1
    rw [addObjCont_eq_nomod _ _ oid _ none false hpers2, hre2, Store.set_set]
  · rintro ⟨hfN, hfM, hfD⟩
    rw [e1]
    dsimp only
    have hid := popIid_none_eq s ((st oid).iid) hfN hfM hfD
    rw [hid]

/-- A heap whose instance `0` is a persistent row with primary key `5`. -/
def c7store : Store :=
  fun o =>
    if o = 0 then
      { meta := 0, pkattr := some 5, dbpk := some 5, iid := Iid.pk 5,
        persistent := true, deleted := false, action := Act.noact,
        score := none, session := none }
    else wStore o

def c7cx : SMState := { store := c7store, sm := { wSM with bModified := [(Iid.pk 5, 0)] } }

/-- **C7 counterexample.**  The claim "`add(persistent_instance,
modified=False)` twice leaves the `SessionModel`'s buckets unchanged" is
false: for a persistent instance staged in `_modified`, the first call pops
it and (being unmodified) does not re-file it, so the bucket ends empty. -/
theorem c7_counterexample :
    ((SessionModel.addObj (SessionModel.addObj c7cx 0 false none false).1
        0 false none false).1).sm.bModified = [] ∧
      c7cx.sm.bModified = [(Iid.pk 5, 0)] := by
  constructor <;> rfl

def c7w1 : SMState := { store := c7store, sm := wSM }

theorem c7_unmodified_add_witness :
    SessionModel.addObj (SessionModel.addObj c7w1 0 false none false).1 0 false none false
      = ((SessionModel.addObj c7w1 0 false none false).1, .ok 0) ∧
    ((SessionModel.addObj c7w1 0 false none false).1).sm = c7w1.sm :=
  ⟨(c7_unmodified_add c7w1 0 none (by decide) (by decide) (by decide) rfl).1,
   (c7_unmodified_add c7w1 0 none (by decide) (by decide) (by decide) rfl).2
     ⟨by decide, by decide, by decide⟩⟩

theorem postCommitOne_eq_unknown (ss : SMState) (r : IResult)
    (hN : odGet ss.sm.bNew r.iid = none) (hM : odGet ss.sm.bModified r.iid = none)
    (hD : odGet ss.sm.bDeleted r.iid = none) (hdel : r.deleted = false) :
    postCommitOne ss r = (ss, .error (Err.invalidTransaction notInSessionMsg)) := by
  unfold postCommitOne
  rw [popIid_none_eq ss.sm r.iid hN hM hD, hdel]
  simp

theorem postCommitOne_eq_deleted (ss : SMState) (r : IResult)
    (hN : odGet ss.sm.bNew r.iid = none) (hM : odGet ss.sm.bModified r.iid = none)
    (hD : odGet ss.sm.bDeleted r.iid = none) (hdel : r.deleted = true) :
    postCommitOne ss r = (ss, .ok none) := by
  unfold postCommitOne
  rw [popIid_none_eq ss.sm r.iid hN hM hD, hdel]
  simp

/-! ## Claim C5 -/

/-- **C5 (amended).**  `SessionModel.post_commit` fails with
`InvalidTransaction` for a non-error result whose iid is in no bucket *only
when `result.deleted` is not set*; a deleted result with an unknown iid is
processed without error, its id simply appended to the deleted ids.  (The
unamended claim — failure whether or not `result.deleted` is set — is
refuted by the counterexample.) -/
theorem c5_post_commit_unknown (ss : SMState) (r : IResult) (rest : List RItem)
    (hN : odGet ss.sm.bNew r.iid = none) (hM : odGet ss.sm.bModified r.iid = none)
    (hD : odGet ss.sm.bDeleted r.iid = none) :
    (r.deleted = false →
      SessionModel.post_commit ss (RItem.res r :: rest)
        = (ss, .error (Err.invalidTransaction notInSessionMsg))) ∧
    (r.deleted = true →
      SessionModel.post_commit ss [RItem.res r] = (ss, .ok ([], [r.id], []))) := by
  constructor
  · intro hdel
    unfold SessionModel.post_commit
    simp only [SessionModel.postCommitRun]
    rw [postCommitOne_eq_unknown ss r hN hM hD hdel]
  · intro hdel
    unfold SessionModel.post_commit
    simp only [SessionModel.postCommitRun]
    rw [postCommitOne_eq_deleted ss r hN hM hD hdel]
    rfl

def c5ss : SMState := { store := wStore, sm := wSM }

def c5r : IResult :=
  { iid := Iid.pk 9, id := 7, persistent := true, deleted := true, score := none }

/-- **C5 counterexample.**  A deleted backend result whose iid is in no
bucket does *not* make `post_commit` fail with `InvalidTransaction`: the
call succeeds and reports the id among the deleted ids. -/
theorem c5_counterexample :
    SessionModel.post_commit c5ss [RItem.res c5r] = (c5ss, .ok ([], [7], [])) := rfl

def c5r2 : IResult :=
  { iid := Iid.pk 9, id := 7, persistent := true, deleted := false, score := none }

theorem c5_post_commit_unknown_witness :
    SessionModel.post_commit c5ss [RItem.res c5r2]
      = (c5ss, .error (Err.invalidTransaction notInSessionMsg)) ∧
    SessionModel.post_commit c5ss [RItem.res c5r] = (c5ss, .ok ([], [c5r.id], [])) :=
  ⟨(c5_post_commit_unknown c5ss c5r2 [] (by decide) (by decide) (by decide)).1 rfl,
   (c5_post_commit_unknown c5ss c5r [] (by decide) (by decide) (by decide)).2 rfl⟩

/-! ## Claim C2 -/

/-- From key-disjointness and key-sync: no instance object sits in two
buckets at once. -/
theorem SMInv.oidDisj {ss : SMState} (hinv : SMInv ss) (o : Nat) :
    ¬((∃ k, odGet ss.sm.bNew k = some o) ∧ (∃ k, odGet ss.sm.bModified k = some o)) ∧
    ¬((∃ k, odGet ss.sm.bNew k = some o) ∧ (∃ k, odGet ss.sm.bDeleted k = some o)) ∧
    ¬((∃ k, odGet ss.sm.bModified k = some o) ∧ (∃ k, odGet ss.sm.bDeleted k = some o)) := by
  refine ⟨?_, ?_, ?_⟩
  · rintro ⟨⟨k1, h1⟩, k2, h2⟩
    have hk : k1 = k2 := (hinv.syncN k1 o h1).symm.trans (hinv.syncM k2 o h2)
    subst hk
    rcases hinv.disjNM k1 with h | h
    · rw [h] at h1
      cases h1
    · rw [h] at h2
      cases h2
  · rintro ⟨⟨k1, h1⟩, k2, h2⟩
    have hk : k1 = k2 := (hinv.syncN k1 o h1).symm.trans (hinv.syncD k2 o h2)
    subst hk
    rcases hinv.disjND k1 with h | h
    · rw [h] at h1
      cases h1
    · rw [h] at h2
      cases h2
  · rintro ⟨⟨k1, h1⟩, k2, h2⟩
    have hk : k1 = k2 := (hinv.syncM k1 o h1).symm.trans (hinv.syncD k2 o h2)
    subst hk
    rcases hinv.disjMD k1 with h | h
    · rw [h] at h1
      cases h1
    · rw [h] at h2
      cases h2

/-- **C2 (amended).**  For a plain (non-structure) `SessionModel` starting
with empty buckets over a heap whose local iid tokens belong to their own
objects, any sequence of `add` / `delete` / `pop` / `expunge` /
`post_commit` operations in which no `add` passes `persistent=True`
together with `modified=True` keeps the three buckets pairwise disjoint on
iid, and no instance object ever sits in two buckets.  (Unrestricted, the
claim is false: the `SessionStructure` variant violates it — see the
counterexample — and an `add(persistent=True, modified=True)` can re-key an
instance onto a primary-key iid held by a different object.) -/
theorem c2_bucket_disjointness (st0 : Store) (sm0 : SessionModel) (ops : List SMOp)
    (hloc : ∀ oid o', (st0 oid).iid = Iid.loc o' → o' = oid)
    (hN0 : sm0.bNew = []) (hM0 : sm0.bModified = []) (hD0 : sm0.bDeleted = [])
    (hobj : sm0.isStructure = false)
    (hsafe : ∀ op ∈ ops, op.safeB = true) :
    (∀ k, (odGet (runOps ⟨st0, sm0⟩ ops).sm.bNew k = none ∨
           odGet (runOps ⟨st0, sm0⟩ ops).sm.bModified k = none) ∧
          (odGet (runOps ⟨st0, sm0⟩ ops).sm.bNew k = none ∨
           odGet (runOps ⟨st0, sm0⟩ ops).sm.bDeleted k = none) ∧
          (odGet (runOps ⟨st0, sm0⟩ ops).sm.bModified k = none ∨
           odGet (runOps ⟨st0, sm0⟩ ops).sm.bDeleted k = none)) ∧
    (∀ o, ¬((∃ k, odGet (runOps ⟨st0, sm0⟩ ops).sm.bNew k = some o) ∧
            (∃ k, odGet (runOps ⟨st0, sm0⟩ ops).sm.bModified k = some o)) ∧
          ¬((∃ k, odGet (runOps ⟨st0, sm0⟩ ops).sm.bNew k = some o) ∧
            (∃ k, odGet (runOps ⟨st0, sm0⟩ ops).sm.bDeleted k = some o)) ∧
          ¬((∃ k, odGet (runOps ⟨st0, sm0⟩ ops).sm.bModified k = some o) ∧
            (∃ k, odGet (runOps ⟨st0, sm0⟩ ops).sm.bDeleted k = some o))) := by
  have hinv0 : SMInv ⟨st0, sm0⟩ := by
    refine ⟨?_, ?_, ?_, ?_, ?_, ?_, hloc⟩
    · intro k
      rw [hN0]
      exact Or.inl rfl
    · intro k
      rw [hN0]
      exact Or.inl rfl
    · intro k
      rw [hM0]
      exact Or.inl rfl
    · intro k o hk
      rw [hN0] at hk
      simp [odGet] at hk
    · intro k o hk
      rw [hM0] at hk
      simp [odGet] at hk
    · intro k o hk
      rw [hD0] at hk
      simp [odGet] at hk
  have h := runOps_pres ops ⟨st0, sm0⟩ hsafe hobj hinv0
  exact ⟨fun k => ⟨h.1.disjNM k, h.1.disjND k, h.1.disjMD k⟩, fun o => h.1.oidDisj o⟩

/-- A heap whose instance `1` is a persistent row with primary key `5`. -/
def c2sStore : Store :=
  fun o =>
    if o = 1 then
      { meta := 0, pkattr := some 5, dbpk := some 5, iid := Iid.pk 5,
        persistent := true, deleted := false, action := Act.noact,
        score := none, session := none }
    else wStore o

/-- An empty `SessionStructure` container. -/
def c2sSM : SessionModel := { wSM with isStructure := true }

def c2cOps : List SMOp :=
  [SMOp.addOp 1 true none false, SMOp.delOp 1 99, SMOp.addOp 1 true none false]

/-- **C2 counterexample.**  On the `SessionStructure` variant the claim
fails: `add; delete; add` leaves the same instance, under the same iid, in
both `_modified` and `_deleted` (`SessionStructure.add` with
`modified=True` does not pop). -/
theorem c2_counterexample :
    odGet (runOps { store := c2sStore, sm := c2sSM } c2cOps).sm.bModified (Iid.pk 5)
        = some 1 ∧
    odGet (runOps { store := c2sStore, sm := c2sSM } c2cOps).sm.bDeleted (Iid.pk 5)
        = some 1 := by
  constructor <;> rfl

def c2wOps : List SMOp := [SMOp.addOp 2 true none false, SMOp.delOp 2 7]

theorem wStore_loc : ∀ a b, (wStore a).iid = Iid.loc b → b = a := by
  intro a b h
  have h2 : Iid.loc a = Iid.loc b := h
  injection h2 with h3
  exact h3.symm

theorem c2_bucket_disjointness_witness :
    odGet (runOps { store := wStore, sm := wSM } c2wOps).sm.bNew (Iid.loc 2) = none ∨
      odGet (runOps { store := wStore, sm := wSM } c2wOps).sm.bModified (Iid.loc 2) = none :=
  ((c2_bucket_disjointness wStore wSM c2wOps wStore_loc rfl rfl rfl rfl (by decide)).1
     (Iid.loc 2)).1

theorem gdqState_fields (s : SessionModel) :
    (gdqState s).meta = s.meta ∧ (gdqState s).be = s.be ∧ (gdqState s).rbe = s.rbe ∧
      (gdqState s).queries = s.queries ∧ (gdqState s).bNew = s.bNew ∧
      (gdqState s).bModified = s.bModified ∧ (gdqState s).isStructure = s.isStructure := by
  unfold gdqState
  split_ifs <;> simp

/-- `get_delete_query` only consumes `_deleted` and `_delete_query`. -/
theorem get_delete_query_fields (s : SessionModel) :
    ((s.get_delete_query).1.meta = s.meta) ∧ ((s.get_delete_query).1.be = s.be) ∧
      ((s.get_delete_query).1.rbe = s.rbe) ∧
      ((s.get_delete_query).1.queries = s.queries) ∧
      ((s.get_delete_query).1.bNew = s.bNew) ∧
      ((s.get_delete_query).1.bModified = s.bModified) ∧
      ((s.get_delete_query).1.isStructure = s.isStructure) := by
  obtain ⟨h1, h2, h3, h4, h5, h6, h7⟩ := gdqState_fields s
  unfold SessionModel.get_delete_query
  rcases hq : gdqQueries s with _ | ⟨q, rest⟩
  · exact ⟨h1, h2, h3, h4, h5, h6, h7⟩
  · exact ⟨h1, h2, h3, h4, h5, h6, h7⟩

/-- `get_delete_query` with nothing to delete is a no-op. -/
theorem get_delete_query_empty (s : SessionModel) (hD : s.bDeleted = [])
    (hq : s.delete_query = []) : s.get_delete_query = (s, none) := by
  have hgq : gdqQueries s = [] := by
    unfold gdqQueries
    rw [hD, hq]
    simp
  have hgs : gdqState s = s := by
    unfold gdqState
    rw [hD]
    simp
  unfold SessionModel.get_delete_query
  rw [hgq, hgs]

/-! ## Claim C3 -/

/-- **C3.**  The backend split rule of `SessionModel.backends_data`: with
distinct read and write backends, the write backend receives exactly the
dirty instances and the delete query and no queries while the read backend
receives only the queries (each payload emitted only when its buffers are
non-empty); with equal backends a single combined payload is emitted; and
nothing is emitted when dirty, deletes and queries are all empty. -/
theorem c3_backends_split (s s1 : SessionModel) (dq : Option DelQ)
    (hdq : s.get_delete_query = (s1, dq)) :
    (s.be ≠ s.rbe → (s.dirtyList ≠ [] ∨ dq ≠ none) → s.queries ≠ [] →
      (s.backends_data).2 =
        [(s.be, ⟨s.meta, s.dirtyList, dq, []⟩), (s.rbe, ⟨s.meta, [], none, s.queries⟩)]) ∧
    (s.be ≠ s.rbe → (s.dirtyList ≠ [] ∨ dq ≠ none) → s.queries = [] →
      (s.backends_data).2 = [(s.be, ⟨s.meta, s.dirtyList, dq, []⟩)]) ∧
    (s.be ≠ s.rbe → s.dirtyList = [] → dq = none → s.queries ≠ [] →
      (s.backends_data).2 = [(s.rbe, ⟨s.meta, [], none, s.queries⟩)]) ∧
    (s.be = s.rbe → (s.dirtyList ≠ [] ∨ dq ≠ none ∨ s.queries ≠ []) →
      (s.backends_data).2 = [(s.be, ⟨s.meta, s.dirtyList, dq, s.queries⟩)]) ∧
    (s.dirtyList = [] → s.bDeleted = [] → s.delete_query = [] → s.queries = [] →
      (s.backends_data).2 = []) := by
  have hf := get_delete_query_fields s
  rw [hdq] at hf
  dsimp only at hf
  obtain ⟨hfmeta, hfbe, hfrbe, hfq, _, _, _⟩ := hf
  have e : (s.backends_data).2 = backendsOut s.dirtyList dq s1 := by
    unfold SessionModel.backends_data
    rw [hdq]
  refine ⟨?_, ?_, ?_, ?_, ?_⟩
  · intro hbe hne hq
    rw [e]
    unfold backendsOut
    rw [hfq, hfbe, hfrbe, hfmeta]
    have h1 : s.queries.isEmpty = false := by
      simpa [List.isEmpty_iff] using hq
    have h2 : (s.dirtyList.isEmpty && dq.isNone) = false := by
      rcases hne with h | h
      · simp [List.isEmpty_iff, h]
      · rcases hdqv : dq with _ | q
        · exact absurd hdqv h
        · simp
    simp [h1, h2, hbe]
  · intro hbe hne hq
    rw [e]
    unfold backendsOut
    rw [hfq, hfbe, hfrbe, hfmeta]
    have h1 : s.queries.isEmpty = true := by simp [List.isEmpty_iff, hq]
    have h2 : (s.dirtyList.isEmpty && dq.isNone) = false := by
      rcases hne with h | h
      · simp [List.isEmpty_iff, h]
      · rcases hdqv : dq with _ | q
        · exact absurd hdqv h
        · simp
    simp [h1, h2, hbe]
  · intro hbe hdirty hnone hq
    rw [e]
    unfold backendsOut
    rw [hfq, hfbe, hfrbe, hfmeta]
    have h1 : s.queries.isEmpty = false := by
      simpa [List.isEmpty_iff] using hq
    simp [h1, hdirty, hnone, hbe]
  · intro hbe hne
    rw [e]
    unfold backendsOut
    rw [hfq, hfbe, hfrbe, hfmeta]
    have h0 : (s.dirtyList.isEmpty && dq.isNone && s.queries.isEmpty) = false := by
      rcases hne with h | h | h
      · simp [List.isEmpty_iff, h]
      · rcases hdqv : dq with _ | q
        · exact absurd hdqv h
        · simp
      · simp [List.isEmpty_iff, h]
    rw [h0]
    simp [hbe]
  · intro hdirty hD hq hqs
    have hempty := get_delete_query_empty s hD hq
    rw [hempty] at hdq
    obtain ⟨hs1, hdqn⟩ := Prod.mk.injEq .. ▸ hdq
    rw [e]
    unfold backendsOut
    rw [hfq, hdirty, ← hdqn, hqs]
    simp

/-! ## Session-level lemmas -/

theorem restated_session (inst : ModelInstance) (oid : Nat) (p : Option Bool) (f : Bool) :
    (restated inst oid p f).session = inst.session := by
  unfold restated mkState
  split_ifs <;> rfl

theorem store_set_session (st : Store) (oid : Nat) (d : ModelInstance) (o : Nat)
    (hd : d.session = (st oid).session) :
    ((st.set oid d) o).session = (st o).session := by
  by_cases h : o = oid
  · subst h
    rw [Store.set_self, hd]
  · rw [Store.set_other st oid o d h]

/-- `SessionModel.add` never touches the session back reference of any
instance. -/
theorem smAdd_session_pres (ss : SMState) (oid : Nat) (m : Bool) (p : Option Bool)
    (f : Bool) (o : Nat) :
    (((SessionModel.add ss oid m p f).1).store o).session = (ss.store o).session := by
  unfold SessionModel.add
  by_cases hs : ss.sm.isStructure
  · rw [if_pos hs]
    unfold SessionModel.addStruct
    by_cases hm : m
    · rw [if_pos hm]
      exact store_set_session _ _ _ _ rfl
    · rw [if_neg hm]
      rcases hr : (ss.sm.popIid ((ss.store oid).iid)).2 with e | v
      · exact store_set_session _ _ _ _ rfl
      · exact store_set_session _ _ _ _ rfl
  · rw [if_neg hs]
    unfold SessionModel.addObj
    by_cases hd : (ss.store oid).deleted
    · rw [if_pos hd]
    · rw [if_neg hd]
      rcases hr : (ss.sm.popIid ((ss.store oid).iid)).2 with e | v
      · rfl
      · unfold addObjCont
        exact store_set_session _ _ _ _ (restated_session _ _ _ _)

theorem sessionAdd_eq_cont (st : Store) (ss : Session) (oid : Nat) (m : Bool)
    (p : Option Bool) (f : Bool) (ss1 : Session) (mkey : Nat) (sm : SessionModel)
    (h : ss.smodel ((st oid).meta) = .ok (ss1, mkey, sm)) :
    Session.add st ss oid m p f = sessionAddCont st ss1 mkey sm oid m p f ss.sid := by
  unfold Session.add
  rw [h]

/-- `Session.add` rebinds `instance.session` to the session, whatever else
happens afterwards. -/
theorem sessionAdd_session (st : Store) (ss : Session) (oid : Nat) (m : Bool)
    (p : Option Bool) (f : Bool) (ss1 : Session) (mkey : Nat) (sm : SessionModel)
    (h : ss.smodel ((st oid).meta) = .ok (ss1, mkey, sm)) :
    ((Session.add st ss oid m p f).1 oid).session = some ss.sid := by
  rw [sessionAdd_eq_cont st ss oid m p f ss1 mkey sm h]
  unfold sessionAddCont
  dsimp only
  rw [smAdd_session_pres]
  dsimp only
  rw [Store.set_self]

/-- Characterization of `Session.model(model, create=True)`. -/
theorem smodel_spec (ss : Session) (meta : Nat) (ss1 : Session) (mkey : Nat)
    (sm : SessionModel) (h : ss.smodel meta = .ok (ss1, mkey, sm)) :
    ss1.sid = ss.sid ∧ ss1.transaction = ss.transaction ∧
    (∀ k, k ≠ mkey → odGet ss1.models k = odGet ss.models k) ∧
    odGet ss1.models mkey = some sm ∧
    (odGet ss.models mkey = some sm ∨
      (odGet ss.models mkey = none ∧ sm.bNew = [] ∧ sm.bModified = [] ∧
        sm.bDeleted = [])) := by
  unfold Session.smodel Session.managerOf at h
  rcases hr : odGet ss.router meta with _ | mgr
  all_goals rw [hr] at h
  all_goals dsimp only at h
  · simp at h
  · rcases hm : odGet ss.models mgr.oid with _ | sm0
    all_goals rw [hm] at h
    all_goals dsimp only at h
    · simp only [Except.ok.injEq, Prod.mk.injEq] at h
      obtain ⟨h1, h2, h3⟩ := h
      subst h1
      subst h2
      subst h3
      refine ⟨rfl, rfl, ?_, ?_, Or.inr ⟨hm, rfl, rfl, rfl⟩⟩
      · intro k hk
        dsimp only
        rw [odGet_set, if_neg hk]
      · dsimp only
        rw [odGet_set, if_pos rfl]
    · simp only [Except.ok.injEq, Prod.mk.injEq] at h
      obtain ⟨h1, h2, h3⟩ := h
      subst h1
      subst h2
      subst h3
      exact ⟨rfl, rfl, fun k hk => rfl, hm, Or.inl hm⟩

/-- The three buckets held for a `_models` key (empty when absent). -/
def bucketsAt (ss : Session) (k : Nat) :
    List (Iid × Nat) × List (Iid × Nat) × List (Iid × Nat) :=
  match odGet ss.models k with
  | some sm => (sm.bNew, sm.bModified, sm.bDeleted)
  | none => ([], [], [])

theorem bucketsAt_some (ss : Session) (k : Nat) (sm : SessionModel)
    (h : odGet ss.models k = some sm) :
    bucketsAt ss k = (sm.bNew, sm.bModified, sm.bDeleted) := by
  unfold bucketsAt
  rw [h]

theorem bucketsAt_none (ss : Session) (k : Nat) (h : odGet ss.models k = none) :
    bucketsAt ss k = ([], [], []) := by
  unfold bucketsAt
  rw [h]

theorem bucketsAt_eq (s1 s2 : Session) (k : Nat)
    (h : odGet s1.models k = odGet s2.models k) :
    bucketsAt s1 k = bucketsAt s2 k := by
  unfold bucketsAt
  rw [h]

/-! ## C1: rollback -/

def c1mgr : Manager :=
  { oid := 10, meta := 1, isStructure := false, backend := 0, read_backend := none }

def c1sess : Session :=
  { sid := 0, router := [(1, c1mgr)], models := [], transaction := true }

def c1store : Store := fun o => { wStore o with meta := 1 }

def c1world : TxWorld :=
  { store := (Session.add c1store c1sess 0 true none false).1,
    sess := (Session.add c1store c1sess 0 true none false).2.1,
    txSess := true, txFinished := false, txSaved := [], txDeleted := [] }

/-- **C1 (counterexample).** With an open transaction, `session.add(x)`
followed by `session.transaction.rollback()` does expunge the session and
detach `session.transaction`, but `x.session` still points at the session:
`Session.expunge()` with no argument only clears `self._models` and never
touches `x.session`, so the claimed `x.session is None` fails. -/
theorem c1_counterexample :
    c1sess.transaction = true ∧
    (Session.add c1store c1sess 0 true none false).2.2 = .ok (AddRes.returned 0) ∧
    (Transaction.rollback c1world).sess.models = [] ∧
    (Transaction.rollback c1world).sess.transaction = false ∧
    ((Transaction.rollback c1world).store 0).session = some c1sess.sid ∧
    ¬ ((Transaction.rollback c1world).store 0).session = none :=
  ⟨rfl, rfl, rfl, rfl, rfl, by decide⟩

/-- **C1 (amended).** Rollback erases *staging* but not the back reference:
after `session.add(x)` under an open transaction, `rollback()` leaves the
session with no `SessionModel`s at all (so `x` is in no bucket), detaches
`session.transaction`, and `x.session` still refers to the session. -/
theorem c1_rollback_amended (st : Store) (ss : Session) (oid : Nat)
    (p : Option Bool) (f : Bool) (r : AddRes) (ss1 : Session) (mkey : Nat)
    (sm : SessionModel)
    (hsm : ss.smodel ((st oid).meta) = .ok (ss1, mkey, sm))
    (htx : ss.transaction = true)
    (ha : (Session.add st ss oid true p f).2.2 = .ok r) :
    (Transaction.rollback
        { store := (Session.add st ss oid true p f).1,
          sess := (Session.add st ss oid true p f).2.1,
          txSess := true, txFinished := false, txSaved := [],
          txDeleted := [] }).sess.models = [] ∧
    (Transaction.rollback
        { store := (Session.add st ss oid true p f).1,
          sess := (Session.add st ss oid true p f).2.1,
          txSess := true, txFinished := false, txSaved := [],
          txDeleted := [] }).sess.transaction = false ∧
    (∀ k, bucketsAt (Transaction.rollback
        { store := (Session.add st ss oid true p f).1,
          sess := (Session.add st ss oid true p f).2.1,
          txSess := true, txFinished := false, txSaved := [],
          txDeleted := [] }).sess k = ([], [], [])) ∧
    ((Transaction.rollback
        { store := (Session.add st ss oid true p f).1,
          sess := (Session.add st ss oid true p f).2.1,
          txSess := true, txFinished := false, txSaved := [],
          txDeleted := [] }).store oid).session = some ss.sid := by
  refine ⟨rfl, rfl, fun k => rfl, ?_⟩
  show ((Session.add st ss oid true p f).1 oid).session = some ss.sid
  exact sessionAdd_session st ss oid true p f ss1 mkey sm hsm

/-- Witness for the amended C1 statement at the counterexample fixture. -/
theorem c1_rollback_amended_witness :
    ((Transaction.rollback
        { store := (Session.add c1store c1sess 0 true none false).1,
          sess := (Session.add c1store c1sess 0 true none false).2.1,
          txSess := true, txFinished := false, txSaved := [],
          txDeleted := [] }).store 0).session = some c1sess.sid :=
  (c1_rollback_amended c1store c1sess 0 none false (AddRes.returned 0)
    { c1sess with models := odSet [] 10 (newSessionModel c1mgr) } 10
    (newSessionModel c1mgr) rfl rfl rfl).2.2.2

/-! ## C9: Session.add is not atomic on error -/

/-- **C9.** `Session.add` rebinds `instance.session = self` *before*
delegating to `SessionModel.add`; when the instance's state is marked
deleted the delegate raises `ValueError('State is deleted. Cannot add.')`,
yet the back reference has already been rebound while every bucket of the
session is left as it was. -/
theorem c9_add_not_atomic (st : Store) (ss : Session) (oid : Nat) (m : Bool)
    (p : Option Bool) (f : Bool) (ss1 : Session) (mkey : Nat) (sm : SessionModel)
    (hsm : ss.smodel ((st oid).meta) = .ok (ss1, mkey, sm))
    (hstruct : sm.isStructure = false)
    (hdel : (st oid).deleted = true) :
    (Session.add st ss oid m p f).2.2 = .error (Err.valueError deletedMsg) ∧
    ((Session.add st ss oid m p f).1 oid).session = some ss.sid ∧
    (∀ k, bucketsAt (Session.add st ss oid m p f).2.1 k = bucketsAt ss k) := by
  have hcont := sessionAdd_eq_cont st ss oid m p f ss1 mkey sm hsm
  have hd1 : ((st.set oid { st oid with session := some ss.sid }) oid).deleted = true := by
    rw [Store.set_self]
    exact hdel
  have hadd : SessionModel.add
      { store := st.set oid { st oid with session := some ss.sid }, sm := sm }
      oid m p f =
      ({ store := st.set oid { st oid with session := some ss.sid }, sm := sm },
       .error (Err.valueError deletedMsg)) := by
    unfold SessionModel.add
    dsimp only
    rw [if_neg (by rw [hstruct]; exact Bool.false_ne_true)]
    exact addObj_eq_deleted _ oid m p f hd1
  obtain ⟨-, -, hothers, hmk, hcases⟩ := smodel_spec ss _ ss1 mkey sm hsm
  refine ⟨?_, sessionAdd_session st ss oid m p f ss1 mkey sm hsm, ?_⟩
  · rw [hcont]
    unfold sessionAddCont
    dsimp only
    rw [hadd]
  · intro k
    rw [hcont]
    unfold sessionAddCont
    dsimp only
    rw [hadd]
    dsimp only
    by_cases hk : k = mkey
    · subst hk
      have hlk : odGet (odSet ss1.models k sm) k = some sm := by
        rw [odGet_set, if_pos rfl]
      have hL : bucketsAt { ss1 with models := odSet ss1.models k sm } k
          = (sm.bNew, sm.bModified, sm.bDeleted) := bucketsAt_some _ _ _ hlk
      rcases hcases with hc | ⟨hnone, hN, hM, hD⟩
      · rw [hL, bucketsAt_some ss k sm hc]
      · rw [hL, bucketsAt_none ss k hnone, hN, hM, hD]
    · have hlk : odGet (odSet ss1.models mkey sm) k = odGet ss.models k := by
        rw [odGet_set, if_neg hk, hothers k hk]
      exact bucketsAt_eq _ ss k hlk

def c9mgr : Manager :=
  { oid := 20, meta := 1, isStructure := false, backend := 0, read_backend := none }

def c9sess : Session :=
  { sid := 3, router := [(1, c9mgr)], models := [], transaction := false }

def c9store : Store := fun o => { wStore o with meta := 1, deleted := true }

/-- Witness for C9 at a deleted instance in a fresh session. -/
theorem c9_add_not_atomic_witness :
    (Session.add c9store c9sess 0 true none false).2.2
        = .error (Err.valueError deletedMsg) ∧
    ((Session.add c9store c9sess 0 true none false).1 0).session = some 3 ∧
    bucketsAt (Session.add c9store c9sess 0 true none false).2.1 10
        = bucketsAt c9sess 10 := by
  obtain ⟨h1, h2, h3⟩ := c9_add_not_atomic c9store c9sess 0 true none false
    { c9sess with models := odSet [] 20 (newSessionModel c9mgr) } 20
    (newSessionModel c9mgr) rfl rfl rfl
  exact ⟨h1, h2, h3 10⟩

/-! ## C4: commit error aggregation -/

theorem aggregateErrors_single (e : String) : aggregateErrors [e] = some (e, 1) :=
  rfl

theorem aggregateErrors_multi (e : String) (rest : List String) (h : rest ≠ []) :
    aggregateErrors (e :: rest) =
      some ("There were " ++ toString (rest.length + 1) ++
              " exceptions during commit.\n\n" ++
              String.intercalate "\n\n" (e :: rest),
            rest.length + 1) := by
  unfold aggregateErrors
  dsimp only
  rw [if_pos]
  have : 0 < rest.length := List.length_pos.mpr h
  omega

theorem txPostCommit_eq (w : TxWorld) (resp : List RespItem)
    (st : Store) (ss : Session) (excs : List String)
    (saved deleted : List (Nat × List Nat))
    (hscan : Transaction.scan w.store w.sess resp [] w.txSaved w.txDeleted
      = (st, ss, .ok (excs, saved, deleted))) :
    Transaction.txPostCommit w resp =
      (let w1 : TxWorld :=
         { w with
           store := st
           sess := ss
           txSaved := saved
           txDeleted := deleted
           txFinished := true }
       match aggregateErrors excs with
       | none => (w1, .ok ())
       | some (msg, n) => (w1, .error (Err.commitException msg n))) := by
  unfold Transaction.txPostCommit
  rw [hscan]

/-- **C4.** When the scanning phase of `Transaction._post_commit` collects a
non-empty error list, the transaction is marked finished and a
`CommitException` is raised whose `failures` equals the number of collected
errors; a single error keeps its own message, and `N > 1` errors produce the
banner `'There were N exceptions during commit.'` followed by the
double-newline-joined messages. -/
theorem c4_commit_error_aggregation (w : TxWorld) (resp : List RespItem)
    (st : Store) (ss : Session) (excs : List String)
    (saved deleted : List (Nat × List Nat))
    (hscan : Transaction.scan w.store w.sess resp [] w.txSaved w.txDeleted
      = (st, ss, .ok (excs, saved, deleted)))
    (hne : excs ≠ []) :
    (∃ msg, (Transaction.txPostCommit w resp).2
        = .error (Err.commitException msg excs.length)) ∧
    (∀ e, excs = [e] →
      (Transaction.txPostCommit w resp).2 = .error (Err.commitException e 1)) ∧
    (1 < excs.length →
      (Transaction.txPostCommit w resp).2 = .error (Err.commitException
        ("There were " ++ toString excs.length ++ " exceptions during commit.\n\n"
          ++ String.intercalate "\n\n" excs) excs.length)) ∧
    (Transaction.txPostCommit w resp).1.txFinished = true := by
  have heq := txPostCommit_eq w resp st ss excs saved deleted hscan
  have h2 : ∀ msg n, aggregateErrors excs = some (msg, n) →
      (Transaction.txPostCommit w resp).2 = .error (Err.commitException msg n) := by
    intro msg n hag
    rw [heq]
    dsimp only
    rw [hag]
  have hfin : (Transaction.txPostCommit w resp).1.txFinished = true := by
    rw [heq]
    rcases hag : aggregateErrors excs with _ | ⟨msg, n⟩
    · rfl
    · rfl
  refine ⟨?_, ?_, ?_, hfin⟩
  · rcases excs with _ | ⟨e, rest⟩
    · exact absurd rfl hne
    rcases rest with _ | ⟨e2, rest2⟩
    · exact ⟨e, h2 e 1 (aggregateErrors_single e)⟩
    · exact ⟨_, h2 _ _ (aggregateErrors_multi e (e2 :: rest2) (by simp))⟩
  · intro e he
    refine h2 e 1 ?_
    rw [he]
    exact aggregateErrors_single e
  · intro hlen
    rcases excs with _ | ⟨e, rest⟩
    · exact absurd rfl hne
    rcases rest with _ | ⟨e2, rest2⟩
    · simp at hlen
    · exact h2 _ _ (aggregateErrors_multi e (e2 :: rest2) (by simp))

def c4w : TxWorld :=
  { store := wStore,
    sess := { sid := 0, router := [], models := [], transaction := false },
    txSess := true, txFinished := false, txSaved := [], txDeleted := [] }

/-- Witness for C4: two backend exceptions are aggregated under the
two-failure banner. -/
theorem c4_commit_error_aggregation_witness :
    (∃ msg, (Transaction.txPostCommit c4w [RespItem.exc "a", RespItem.exc "b"]).2
        = .error (Err.commitException msg 2)) ∧
    (Transaction.txPostCommit c4w [RespItem.exc "a", RespItem.exc "b"]).2
        = .error (Err.commitException
            "There were 2 exceptions during commit.\n\na\n\nb" 2) ∧
    (Transaction.txPostCommit c4w [RespItem.exc "a", RespItem.exc "b"]).1.txFinished
        = true := by
  obtain ⟨h1, h2, h3, h4⟩ := c4_commit_error_aggregation c4w
    [RespItem.exc "a", RespItem.exc "b"] wStore c4w.sess ["a", "b"] [] [] rfl
    (by simp)
  exact ⟨h1, h3 (by decide), h4⟩

/-! ## C8: Manager equality -/

def c8m1 : Manager :=
  { oid := 0, meta := 7, isStructure := false, backend := 0, read_backend := none }

def c8m2 : Manager :=
  { oid := 1, meta := 7, isStructure := false, backend := 0, read_backend := none }

/-- **C8 (code bug).**  `Manager` defines `__hash__` but no `__eq__`, so
Python equality between managers is plain object identity, *not* the
metadata equality the spec claims: two distinct managers over the same
`model._meta` hash alike yet compare unequal, and hence occupy two separate
slots of a dictionary rather than colliding onto one key.  In particular the
`self._models.get(instance._meta)` lookup in `Session.expunge` can never
find the manager-keyed entry. -/
theorem c8_manager_identity_equality :
    (∀ m1 m2 : Manager, (Manager.pyEq m1 m2 = true ↔ m1.oid = m2.oid)) ∧
    Manager.pyEq c8m1 c8m2 = false ∧
    c8m1.meta = c8m2.meta ∧
    Manager.hashv c8m1 = Manager.hashv c8m2 ∧
    (pdictSet (pdictSet [] (PyKey.manager c8m1) 0) (PyKey.manager c8m2) 1).length
        = 2 ∧
    pdictGet (pdictSet [] (PyKey.manager c8m1) 0) (PyKey.metaKey 7) = none :=
  ⟨fun m1 m2 => beq_iff_eq, rfl, rfl, rfl, rfl, rfl⟩

/-! ## C3: witness fixtures -/

def c3s : SessionModel :=
  { meta := 3, be := 0, rbe := 1, isStructure := false,
    bNew := [(Iid.loc 0, 0)], bModified := [], bDeleted := [],
    delete_query := [], queries := [DelQ.userQuery 9] }

def c3s2 : SessionModel :=
  { meta := 4, be := 2, rbe := 2, isStructure := false,
    bNew := [], bModified := [(Iid.pk 1, 5)], bDeleted := [],
    delete_query := [], queries := [] }

/-- Witness for C3: the split case, the combined case and the all-empty
case at concrete containers. -/
theorem c3_backends_split_witness :
    (c3s.backends_data).2 =
      [(0, ⟨3, [0], none, []⟩),
       (1, ⟨3, [], none, [DelQ.userQuery 9]⟩)] ∧
    (c3s2.backends_data).2 = [(2, ⟨4, [5], none, []⟩)] ∧
    (wSM.backends_data).2 = [] := by
  refine ⟨?_, ?_, ?_⟩
  · rw [(c3_backends_split c3s c3s none rfl).1 (by decide) (Or.inl (by decide))
      (List.cons_ne_nil _ _)]
    rfl
  · rw [(c3_backends_split c3s2 c3s2 none rfl).2.2.2.1 rfl (Or.inl (by decide))]
    rfl
  · exact (c3_backends_split wSM wSM none rfl).2.2.2.2 rfl rfl rfl rfl

end Stdnet
